import Mathlib

/-!
Shallow embedding of the `autonomous_orchestrator` crate (decision engine,
anomaly detector, self-healing service, resource manager, analytics engine)
together with theorems checking the natural-language specification against it.

Conventions of the embedding:
* Rust `f64` values are modelled as `ℚ` wherever the source only performs
  field arithmetic and comparisons; `sqrt` (used by the amount-anomaly
  detector and the prediction stddev) is modelled with `Real.sqrt`.
* Rust integer types (`u32`, `u64`, `usize`) are modelled as `Nat`; `i64`
  amounts as `Int`; timestamps (`time::OffsetDateTime`) as `Int` seconds.
  None of the embedded operations can overflow their 64-bit ranges on the
  inputs the theorems quantify over, so no wrap-around modelling is needed.
* Effectful identity generation (`Uuid::new_v4`) and clock reads
  (`now_utc`) are passed in explicitly as oracle arguments.
* `VecDeque` ring buffers are modelled as Lean lists with the head as the
  queue front (oldest element); `HashMap` as association lists.
* Free-form log output is not modelled; formatted report strings
  (`rationale`, scaling `reason`) are built with `toString` of the exact
  numeric values, standing in for Rust's decimal formatting.
-/

namespace AutonomousOrchestrator

/-! ## Data model (`types.rs`) -/

/-- `types.rs::PaymentEvent`.  The `event_type` tag and free-form `metadata`
map are never read by the embedded operations and are omitted. -/
structure PaymentEvent where
  event_id : String
  timestamp : Int
  payment_id : String
  merchant_id : String
  connector : Option String
  payment_method : Option String
  amount : Option Int
  currency : Option String
  status : String
  error_code : Option String
  error_message : Option String
deriving Repr, DecidableEq

/-- `types.rs::AnomalyType`. -/
inductive AnomalyType where
  | VolumeSpike
  | VolumeDrop
  | HighFailureRate
  | UnusualPattern
  | PotentialFraud
  | PerformanceDegradation
  | Other
deriving Repr, DecidableEq

/-- `types.rs::HealingActionType` (the variants the core constructs). -/
inductive HealingActionType where
  | RetryPayment
  | SwitchConnector
  | UpdateRouting
  | ClearCache
  | RestartService
  | ScaleResources
deriving Repr, DecidableEq

/-- `types.rs::ActionStatus`. -/
inductive ActionStatus where
  | Pending
  | InProgress
  | Success
  | Failed
  | RolledBack
deriving Repr, DecidableEq

/-- `types.rs::HealingAction`. -/
structure HealingAction where
  id : Nat
  timestamp : Int
  action_type : HealingActionType
  target : String
  status : ActionStatus
  result_message : Option String
  recovery_time_ms : Option Nat
deriving Repr, DecidableEq

/-- `types.rs::ConnectorScore`. -/
structure ConnectorScore where
  connector : String
  score : ℚ
  expected_success_rate : ℚ
  expected_latency_ms : Nat
  cost_estimate : Option ℚ
deriving Repr, DecidableEq

/-- `types.rs::RoutingDecision`. -/
structure RoutingDecision where
  id : Nat
  timestamp : Int
  payment_id : String
  recommended_connector : String
  confidence : ℚ
  alternatives : List ConnectorScore
  rationale : String
  was_correct : Option Bool
deriving Repr, DecidableEq

/-- `types.rs::HealthMetrics`. -/
structure HealthMetrics where
  timestamp : Int
  cpu_usage : ℚ
  memory_usage : ℚ
  active_connections : Nat
  request_rate : ℚ
  avg_response_time_ms : ℚ
  error_rate : ℚ
  queue_depth : Nat
  db_pool_usage : ℚ
  redis_pool_usage : ℚ
deriving Repr, DecidableEq

/-- `types.rs::ScalingDirection`. -/
inductive ScalingDirection where
  | Up
  | Down
  | NoChange
deriving Repr, DecidableEq

/-- `types.rs::ScalingRecommendation`. -/
structure ScalingRecommendation where
  id : Nat
  timestamp : Int
  direction : ScalingDirection
  target_instances : Nat
  current_instances : Nat
  reason : String
  expected_impact : String
  auto_apply : Bool
deriving Repr, DecidableEq

/-- `types.rs::TimeSeriesPoint`. -/
structure TimeSeriesPoint where
  timestamp : Int
  value : ℚ
deriving Repr, DecidableEq

/-! ## Configuration (`config.rs`), restricted to the fields the core reads -/

/-- `config.rs::AnomalyDetectionConfig`. -/
structure AnomalyDetectionConfig where
  enabled : Bool
  sensitivity : ℚ
  window_size_minutes : Nat
  alert_threshold : Nat
  enable_fraud_detection : Bool
deriving Repr, DecidableEq

/-- `config.rs::SelfHealingConfig`. -/
structure SelfHealingConfig where
  enabled : Bool
  max_retry_attempts : Nat
  initial_retry_delay_seconds : Nat
  retry_backoff_multiplier : ℚ
  auto_switch_connectors : Bool
  failure_threshold : Nat
deriving Repr, DecidableEq

/-- `config.rs::AnalyticsConfig`. -/
structure AnalyticsConfig where
  enabled : Bool
  aggregation_interval_minutes : Nat
  retention_days : Nat
  enable_predictions : Bool
  forecast_horizon_days : Nat
deriving Repr, DecidableEq

/-- `config.rs::ResourceManagerConfig`. -/
structure ResourceManagerConfig where
  enable_auto_scaling : Bool
  cpu_scale_up_threshold : ℚ
  cpu_scale_down_threshold : ℚ
  memory_scale_up_threshold : ℚ
  memory_scale_down_threshold : ℚ
  min_instances : Nat
  max_instances : Nat
  scale_cooldown_seconds : Nat
deriving Repr, DecidableEq

/-! ## Bounded FIFO rings

Every bounded ring in the crate (`TimeSeries::add_point`, the anomaly
history, the healing-action history, the metrics history and the scaling
history) pushes with the same pattern:
`if queue.len() >= cap { queue.pop_front(); } queue.push_back(x)`. -/

/-- The shared bounded-FIFO push: evict the front (oldest) element once the
configured capacity is reached, then append at the back. -/
def pushBounded (cap : Nat) (queue : List α) (x : α) : List α :=
  (if cap ≤ queue.length then queue.drop 1 else queue) ++ [x]

/-! ## Association-list stand-in for `HashMap::entry(..).or_insert_with(..)` -/

/-- `map.entry(k).or_insert_with(|| init)` followed by an in-place update `f`:
update the existing entry for `k`, or append `(k, f init)` when absent. -/
def updateAssoc (m : List (String × β)) (k : String) (init : β) (f : β → β) :
    List (String × β) :=
  match m with
  | [] => [(k, f init)]
  | (k', v) :: rest =>
      if k' = k then (k', f v) :: rest else (k', v) :: updateAssoc rest k init f

/-- `HashMap::get`. -/
def lookupAssoc (m : List (String × β)) (k : String) : Option β :=
  (m.find? (fun e => e.1 == k)).map (fun e => e.2)

/-! ## Stable descending sort

`slice::sort_by` is a stable sort; the crate always sorts descending by a
numeric key.  A stable insertion sort produces the identical output. -/

/-- Insert `x` (an earlier element) before the first element with a strictly
smaller key, keeping equal-key elements in their original order. -/
def insertDescBy (key : α → ℚ) (x : α) : List α → List α
  | [] => [x]
  | y :: ys => if key y ≤ key x then x :: y :: ys else y :: insertDescBy key x ys

/-- Stable sort, descending by `key`. -/
def sortDescBy (key : α → ℚ) : List α → List α
  | [] => []
  | x :: xs => insertDescBy key x (sortDescBy key xs)

/-! ## Analytics engine (`analytics.rs`) -/

/-- `analytics.rs::AnalyticsError`. -/
inductive AnalyticsError where
  | Computation (msg : String)
  | InsufficientData (msg : String)
deriving Repr, DecidableEq

/-- `analytics.rs::AggregatedMetrics` (the clock-echo `period_start` /
`period_end` fields are not modelled). -/
structure AggregatedMetrics where
  total_payments : Nat
  successful_payments : Nat
  failed_payments : Nat
  total_amount : Int
deriving Repr, DecidableEq

/-- `analytics.rs::ConnectorMetrics`. -/
structure ConnectorMetrics where
  connector : String
  total_transactions : Nat
  successful_transactions : Nat
  total_latency_ms : Nat
  total_amount : Int
deriving Repr, DecidableEq

/-- `analytics.rs::PaymentMethodMetrics`. -/
structure PaymentMethodMetrics where
  method : String
  total_transactions : Nat
  successful_transactions : Nat
  total_amount : Int
deriving Repr, DecidableEq

/-- `types.rs::ConnectorStats` (a row of the summary). -/
structure ConnectorStats where
  connector : String
  total_transactions : Nat
  success_rate : ℚ
  avg_latency_ms : ℚ
  total_amount : Int
deriving Repr, DecidableEq

/-- `types.rs::PaymentMethodStats` (a row of the summary). -/
structure PaymentMethodStats where
  payment_method : String
  total_transactions : Nat
  success_rate : ℚ
  total_amount : Int
deriving Repr, DecidableEq

/-- `types.rs::AnalyticsSummary` (clock-echo period fields not modelled). -/
structure AnalyticsSummary where
  total_payments : Nat
  successful_payments : Nat
  failed_payments : Nat
  success_rate : ℚ
  total_amount : Int
  avg_amount : ℚ
  top_connectors : List ConnectorStats
  top_payment_methods : List PaymentMethodStats
  anomalies_detected : Nat
  healing_actions_taken : Nat
deriving Repr, DecidableEq

/-- The mutable state of `analytics.rs::AnalyticsEngine`. -/
structure AnalyticsState where
  metrics : AggregatedMetrics
  connector_stats : List (String × ConnectorMetrics)
  payment_method_stats : List (String × PaymentMethodMetrics)
  time_series_data : List TimeSeriesPoint
deriving Repr, DecidableEq

/-- `AnalyticsEngine::new`. -/
def AnalyticsState.init : AnalyticsState :=
  { metrics := ⟨0, 0, 0, 0⟩
    connector_stats := []
    payment_method_stats := []
    time_series_data := [] }

/-- `AnalyticsEngine::process_event`.  Always returns `Ok(())` in the source,
so only the state transition is modelled; when analytics is disabled the
state is untouched (the no-op success path). -/
def processEvent (cfg : AnalyticsConfig) (s : AnalyticsState) (event : PaymentEvent)
    (now : Int) : AnalyticsState :=
  if cfg.enabled = false then s else
  let m := s.metrics
  let m := { m with total_payments := m.total_payments + 1 }
  let m :=
    if event.status = "succeeded" then
      { m with successful_payments := m.successful_payments + 1 }
    else if event.status = "failed" then
      { m with failed_payments := m.failed_payments + 1 }
    else m
  let m :=
    match event.amount with
    | some amount => { m with total_amount := m.total_amount + amount }
    | none => m
  let cs :=
    match event.connector with
    | some connector =>
        updateAssoc s.connector_stats connector ⟨connector, 0, 0, 0, 0⟩ (fun e =>
          let e := { e with total_transactions := e.total_transactions + 1 }
          let e :=
            if event.status = "succeeded" then
              { e with successful_transactions := e.successful_transactions + 1 }
            else e
          match event.amount with
          | some amount => { e with total_amount := e.total_amount + amount }
          | none => e)
    | none => s.connector_stats
  let pms :=
    match event.payment_method with
    | some method =>
        updateAssoc s.payment_method_stats method ⟨method, 0, 0, 0⟩ (fun e =>
          let e := { e with total_transactions := e.total_transactions + 1 }
          let e :=
            if event.status = "succeeded" then
              { e with successful_transactions := e.successful_transactions + 1 }
            else e
          match event.amount with
          | some amount => { e with total_amount := e.total_amount + amount }
          | none => e)
    | none => s.payment_method_stats
  let ts := s.time_series_data ++
    [{ timestamp := event.timestamp, value := ((event.amount.getD 0 : Int) : ℚ) }]
  let cutoff := now - (cfg.retention_days : Int) * 86400
  let ts := ts.filter (fun point => decide (cutoff < point.timestamp))
  { metrics := m, connector_stats := cs, payment_method_stats := pms,
    time_series_data := ts }

/-- `AnalyticsEngine::get_summary`. -/
def getSummary (s : AnalyticsState) : AnalyticsSummary :=
  let m := s.metrics
  let success_rate : ℚ :=
    if 0 < m.total_payments then
      (m.successful_payments : ℚ) / (m.total_payments : ℚ)
    else 0
  let avg_amount : ℚ :=
    if 0 < m.total_payments then
      (m.total_amount : ℚ) / (m.total_payments : ℚ)
    else 0
  let top_connectors :=
    (sortDescBy (fun c => (c.total_transactions : ℚ))
      ((s.connector_stats.map Prod.snd).map (fun cm =>
        ({ connector := cm.connector
           total_transactions := cm.total_transactions
           success_rate :=
             if 0 < cm.total_transactions then
               (cm.successful_transactions : ℚ) / (cm.total_transactions : ℚ)
             else 0
           avg_latency_ms :=
             if 0 < cm.total_transactions then
               (cm.total_latency_ms : ℚ) / (cm.total_transactions : ℚ)
             else 0
           total_amount := cm.total_amount } : ConnectorStats)))).take 10
  let top_payment_methods :=
    (sortDescBy (fun p => (p.total_transactions : ℚ))
      ((s.payment_method_stats.map Prod.snd).map (fun pm =>
        ({ payment_method := pm.method
           total_transactions := pm.total_transactions
           success_rate :=
             if 0 < pm.total_transactions then
               (pm.successful_transactions : ℚ) / (pm.total_transactions : ℚ)
             else 0
           total_amount := pm.total_amount } : PaymentMethodStats)))).take 10
  { total_payments := m.total_payments
    successful_payments := m.successful_payments
    failed_payments := m.failed_payments
    success_rate := success_rate
    total_amount := m.total_amount
    avg_amount := avg_amount
    top_connectors := top_connectors
    top_payment_methods := top_payment_methods
    anomalies_detected := 0
    healing_actions_taken := 0 }

/-- The 20 most recent forecast-buffer values (`predict`'s moving window). -/
def recentValues (s : AnalyticsState) : List ℚ :=
  ((s.time_series_data.reverse.take 20).map (fun p => p.value))

/-- Mean of the 20 most recent buffered values. -/
def forecastMean (s : AnalyticsState) : ℚ :=
  (recentValues s).sum / ((recentValues s).length : ℚ)

/-- Population variance of the 20 most recent buffered values. -/
def forecastVariance (s : AnalyticsState) : ℚ :=
  ((recentValues s).map (fun v => (v - forecastMean s) ^ 2)).sum /
    ((recentValues s).length : ℚ)

/-- A forecast point (`f64` value, which may involve `sqrt`). -/
structure PredictedPoint where
  timestamp : Int
  value : ℝ

/-- `analytics.rs::PredictionResult`. -/
structure PredictionResult where
  id : Nat
  timestamp : Int
  metric : String
  predictions : List PredictedPoint
  confidence_interval : ℝ × ℝ
  model_accuracy : Option ℚ

/-- `AnalyticsEngine::predict`.  `jitter d` is the oracle for the
`rand::random::<f64>()` sample drawn for forecast day `d`. -/
noncomputable def predict (cfg : AnalyticsConfig) (s : AnalyticsState)
    (metric : String) (freshId : Nat) (now : Int) (jitter : Nat → ℚ) :
    Except AnalyticsError PredictionResult :=
  if cfg.enable_predictions = false then
    .error (.Computation "Predictions are disabled")
  else if s.time_series_data.length < 100 then
    .error (.InsufficientData
      ("Need at least 100 data points, have " ++ toString s.time_series_data.length))
  else
    let avg := forecastMean s
    let std_dev : ℝ := Real.sqrt (forecastVariance s : ℝ)
    let predictions := (List.range cfg.forecast_horizon_days).map (fun i =>
      { timestamp := now + 86400 * ((i : Int) + 1)
        value := (avg : ℝ) + ((jitter (i + 1) : ℚ) - 1/2) * std_dev * (1/2) })
    .ok { id := freshId
          timestamp := now
          metric := metric
          predictions := predictions
          confidence_interval := ((avg : ℝ) - std_dev, (avg : ℝ) + std_dev)
          model_accuracy := some (85/100) }

/-! ## Anomaly detector (`anomaly_detector.rs`) -/

/-- `anomaly_detector.rs::TimePoint`. -/
structure TimePoint where
  timestamp : Int
  value : ℚ
deriving Repr, DecidableEq

/-- `anomaly_detector.rs::TimeSeries`: four independent rolling windows with
a shared capacity (`max_points`). -/
structure TimeSeries where
  payment_volumes : List TimePoint
  success_rates : List TimePoint
  average_amounts : List TimePoint
  latencies : List TimePoint
  max_points : Nat
deriving Repr, DecidableEq

/-- `TimeSeries::add_point`: bounded FIFO push into one rolling window. -/
def TimeSeries.addPoint (queue : List TimePoint) (point : TimePoint)
    (maxPoints : Nat) : List TimePoint :=
  pushBounded maxPoints queue point

/-- `AnomalyDetector::update_time_series`. -/
def updateTimeSeries (ts : TimeSeries) (event : PaymentEvent) (now : Int) :
    TimeSeries :=
  let ts := { ts with
    payment_volumes :=
      TimeSeries.addPoint ts.payment_volumes ⟨now, 1⟩ ts.max_points }
  let success := event.status = "succeeded"
  let ts := { ts with
    success_rates :=
      TimeSeries.addPoint ts.success_rates ⟨now, if success then 1 else 0⟩
        ts.max_points }
  match event.amount with
  | some amount =>
      { ts with average_amounts :=
          (TimeSeries.addPoint ts.average_amounts ⟨now, (amount : ℚ)⟩
            ts.max_points) }
  | none => ts

/-- `types.rs::AnomalyResult`.  The free-form `details` message (which embeds
formatted floats) is not modelled; `score` lives in `ℝ` because the amount
detector derives it from a square root. -/
structure AnomalyResult where
  id : Nat
  timestamp : Int
  is_anomaly : Bool
  score : ℝ
  anomaly_type : AnomalyType
  entity_id : String
  recommended_actions : List String

/-- `AnomalyDetector::detect_volume_anomaly`.  Both the recent and the
baseline figure are obtained with `.count()` over point lists exactly as in
the source. -/
def detectVolumeAnomaly (ts : TimeSeries) (freshId : Nat) (now : Int) :
    Option AnomalyResult :=
  if ts.payment_volumes.length < 10 then none
  else
    let recent_count : ℚ := ((ts.payment_volumes.reverse.take 5).length : ℚ)
    let baseline_count : ℚ :=
      ((ts.payment_volumes.take (ts.payment_volumes.length - 5)).length : ℚ) /
        ((max (ts.payment_volumes.length - 5) 1 : Nat) : ℚ) * 5
    let threshold : ℚ := 2
    let ratio := recent_count / max baseline_count 1
    if threshold < ratio then
      some { id := freshId, timestamp := now, is_anomaly := true
             score := ((min ((ratio - 1) / threshold) 1 : ℚ) : ℝ)
             anomaly_type := .VolumeSpike, entity_id := "system"
             recommended_actions :=
               ["Monitor system resources", "Check for potential DDoS",
                "Scale up infrastructure if needed"] }
    else if ratio < 1 / threshold then
      some { id := freshId, timestamp := now, is_anomaly := true
             score := ((min (1 - ratio) 1 : ℚ) : ℝ)
             anomaly_type := .VolumeDrop, entity_id := "system"
             recommended_actions :=
               ["Check payment gateway connectivity", "Verify API availability",
                "Contact merchants to confirm issue"] }
    else none

/-- `AnomalyDetector::detect_success_rate_anomaly`. -/
def detectSuccessRateAnomaly (ts : TimeSeries) (freshId : Nat) (now : Int) :
    Option AnomalyResult :=
  if ts.success_rates.length < 20 then none
  else
    let recent_success_rate : ℚ :=
      (((ts.success_rates.reverse.take 10).map (fun p => p.value)).sum) / 10
    let baseline_success_rate : ℚ :=
      (((ts.success_rates.take (ts.success_rates.length - 10)).map
          (fun p => p.value)).sum) /
        ((max (ts.success_rates.length - 10) 1 : Nat) : ℚ)
    let drop_threshold : ℚ := 1/5
    if drop_threshold < baseline_success_rate - recent_success_rate then
      some { id := freshId, timestamp := now, is_anomaly := true
             score :=
               ((min ((baseline_success_rate - recent_success_rate) /
                 drop_threshold) 1 : ℚ) : ℝ)
             anomaly_type := .HighFailureRate, entity_id := "system"
             recommended_actions :=
               ["Investigate connector issues", "Check for card network problems",
                "Review recent configuration changes", "Enable fallback routing"] }
    else none

/-- `AnomalyDetector::detect_fraud_pattern`. -/
def detectFraudPattern (cfg : AnomalyDetectionConfig) (event : PaymentEvent)
    (freshId : Nat) (now : Int) : Option AnomalyResult :=
  let fraud_score : ℚ := 0
  let fraud_score :=
    match event.amount with
    | some amount => if 100000 < amount then fraud_score + 3/10 else fraud_score
    | none => fraud_score
  let fraud_score :=
    if event.error_code = some "card_declined" then fraud_score + 1/5
    else fraud_score
  if cfg.sensitivity < fraud_score then
    some { id := freshId, timestamp := now, is_anomaly := true
           score := (fraud_score : ℝ)
           anomaly_type := .PotentialFraud, entity_id := event.payment_id
           recommended_actions :=
             ["Flag for manual review", "Apply additional verification",
              "Monitor merchant activity"] }
  else none

/-- Mean of the rolling amount window. -/
def amountMean (values : List ℚ) : ℚ := values.sum / (values.length : ℚ)

/-- Population variance of the rolling amount window. -/
def amountVariance (values : List ℚ) : ℚ :=
  ((values.map (fun v => (v - amountMean values) ^ 2)).sum) /
    ((values.length : ℚ))

/-- `AnomalyDetector::detect_amount_anomaly`: fires `UnusualPattern` when the
z-score of the event amount against the rolling amount window (with the
standard deviation floored at `1.0`) exceeds `3.0`. -/
noncomputable def detectAmountAnomaly (ts : TimeSeries) (event : PaymentEvent)
    (freshId : Nat) (now : Int) : Option AnomalyResult :=
  match event.amount with
  | none => none
  | some amount =>
    if ts.average_amounts.length < 20 then none
    else
      let values : List ℚ := ts.average_amounts.map (fun p => p.value)
      let mean := amountMean values
      let variance := amountVariance values
      let std_dev : ℝ := Real.sqrt (variance : ℝ)
      let z_score : ℝ := |((amount : ℚ) : ℝ) - (mean : ℝ)| / max std_dev 1
      if 3 < z_score then
        some { id := freshId, timestamp := now, is_anomaly := true
               score := min (z_score / 5) 1
               anomaly_type := .UnusualPattern, entity_id := event.payment_id
               recommended_actions :=
                 ["Review transaction details", "Verify merchant legitimacy"] }
      else none

/-- `Iterator::max_by` on the anomaly score: the last element among the
equally maximal ones wins, matching Rust's documented tie-breaking. -/
noncomputable def maxByScore (l : List AnomalyResult) : Option AnomalyResult :=
  match l with
  | [] => none
  | x :: xs =>
      some (xs.foldl (fun acc y => if y.score < acc.score then acc else y) x)

/-- The mutable state of `anomaly_detector.rs::AnomalyDetector`
(the derived `baselines` map is never read and is not modelled). -/
structure AnomalyState where
  time_series : TimeSeries
  anomalies : List AnomalyResult

/-- `AnomalyDetector::analyze_event`.  `fresh i` is the oracle for the i-th
`Uuid::new_v4()` drawn while handling this event. -/
noncomputable def analyzeEvent (cfg : AnomalyDetectionConfig) (s : AnomalyState)
    (event : PaymentEvent) (fresh : Nat → Nat) (now : Int) :
    Option AnomalyResult × AnomalyState :=
  if cfg.enabled = false then (none, s)
  else
    let ts := updateTimeSeries s.time_series event now
    let detected : List AnomalyResult :=
      (detectVolumeAnomaly ts (fresh 0) now).toList ++
      (detectSuccessRateAnomaly ts (fresh 1) now).toList ++
      (if cfg.enable_fraud_detection then
        (detectFraudPattern cfg event (fresh 2) now).toList else []) ++
      (detectAmountAnomaly ts event (fresh 3) now).toList
    match maxByScore detected with
    | some anomaly =>
        (some anomaly,
         { time_series := ts, anomalies := pushBounded 1000 s.anomalies anomaly })
    | none => (none, { s with time_series := ts })

/-! ## Decision engine (`decision_engine.rs`) -/

/-- `decision_engine.rs::DecisionEngineError`. -/
inductive DecisionEngineError where
  | Model (msg : String)
  | InsufficientData (msg : String)
  | Decision (msg : String)
deriving Repr, DecidableEq

/-- `decision_engine.rs::ConnectorPerformance`. -/
structure ConnectorPerformance where
  connector : String
  success_count : Nat
  failure_count : Nat
  total_latency_ms : Nat
  total_transactions : Nat
  last_updated : Int
deriving Repr, DecidableEq

/-- `ConnectorPerformance::success_rate`. -/
def ConnectorPerformance.success_rate (p : ConnectorPerformance) : ℚ :=
  if p.total_transactions = 0 then 0
  else (p.success_count : ℚ) / (p.total_transactions : ℚ)

/-- `ConnectorPerformance::avg_latency_ms`. -/
def ConnectorPerformance.avg_latency_ms (p : ConnectorPerformance) : ℚ :=
  if p.total_transactions = 0 then 0
  else (p.total_latency_ms : ℚ) / (p.total_transactions : ℚ)

/-- The seeded cold-start prior used by `score_connector` for a connector
with no recorded history (80 successes / 20 failures / 100 transactions,
50000 ms cumulative latency). -/
def seededPrior (connector : String) (now : Int) : ConnectorPerformance :=
  { connector := connector, success_count := 80, failure_count := 20
    total_latency_ms := 50000, total_transactions := 100, last_updated := now }

/-- The fixed candidate catalog of `make_routing_decision`. -/
def availableConnectors : List String :=
  ["stripe", "adyen", "checkout", "braintree", "worldpay"]

/-- `DecisionEngine::apply_payment_adjustments`. -/
def applyPaymentAdjustments (base_score : ℚ) (connector : String)
    (payment : PaymentEvent) : ℚ :=
  let score := base_score
  let score :=
    match payment.amount with
    | some amount =>
        if 50000 < amount ∧ connector = "stripe" then score * (11/10) else score
    | none => score
  let score :=
    match payment.payment_method with
    | some method =>
        if method = "card" ∧ (connector = "stripe" ∨ connector = "adyen") then
          score * (21/20)
        else score
    | none => score
  min score 1

/-- `DecisionEngine::score_connector`. -/
def scoreConnector (performance_cache : List (String × ConnectorPerformance))
    (connector : String) (payment : PaymentEvent) (now : Int) : ConnectorScore :=
  let perf := (lookupAssoc performance_cache connector).getD (seededPrior connector now)
  let success_rate := perf.success_rate
  let avg_latency := perf.avg_latency_ms
  let latency_score : ℚ := 1 - min (avg_latency / 1000) 1
  let score := success_rate * (7/10) + latency_score * (3/10)
  let adjusted_score := applyPaymentAdjustments score connector payment
  { connector := connector, score := adjusted_score
    expected_success_rate := success_rate
    expected_latency_ms := avg_latency.floor.toNat
    cost_estimate := some (29/1000) }

/-- `DecisionEngine::generate_rationale`; Rust's decimal formatting is stood
in for by `toString` of the exact rational values. -/
def generateRationale (connector_score : ConnectorScore) : String :=
  "Selected " ++ connector_score.connector ++ " with " ++
    toString (connector_score.score * 100).floor ++
    "% confidence based on " ++
    toString (connector_score.expected_success_rate * 100) ++
    "% success rate and " ++ toString connector_score.expected_latency_ms ++
    "ms average latency"

/-- Capacity of the `LruCache` holding routing decisions. -/
def decisionCacheCapacity : Nat := 1000

/-- `LruCache::get`: look the key up and, on a hit, move the entry to the
most-recently-used position (the list front). -/
def lruGet (cache : List (String × RoutingDecision)) (k : String) :
    Option RoutingDecision × List (String × RoutingDecision) :=
  match cache.find? (fun e => e.1 == k) with
  | none => (none, cache)
  | some e => (some e.2, e :: cache.filter (fun x => x.1 != k))

/-- `LruCache::put`: insert at the most-recently-used position, evicting the
least-recently-used entry (the list back) when a new key would exceed the
capacity. -/
def lruPut (cache : List (String × RoutingDecision)) (k : String)
    (v : RoutingDecision) : List (String × RoutingDecision) :=
  let removed := cache.filter (fun x => x.1 != k)
  let removed :=
    if decisionCacheCapacity ≤ removed.length then removed.dropLast else removed
  (k, v) :: removed

/-- The mutable state of `decision_engine.rs::DecisionEngine` (the training
buffer feeds only the no-op `train_model` and `get_model_stats`). -/
structure DecisionState where
  performance_cache : List (String × ConnectorPerformance)
  decision_cache : List (String × RoutingDecision)
deriving Repr, DecidableEq

/-- `DecisionEngine::make_routing_decision`. -/
def makeRoutingDecision (s : DecisionState) (payment : PaymentEvent)
    (freshId : Nat) (now : Int) :
    Except DecisionEngineError RoutingDecision × DecisionState :=
  match lruGet s.decision_cache payment.payment_id with
  | (some cached, cache') => (.ok cached, { s with decision_cache := cache' })
  | (none, _) =>
    let scores := availableConnectors.map
      (fun connector => scoreConnector s.performance_cache connector payment now)
    let scores := sortDescBy (fun cs => cs.score) scores
    match scores with
    | [] => (.error (.Decision "No connectors available"), s)
    | best_connector :: rest =>
        let decision : RoutingDecision :=
          { id := freshId, timestamp := now, payment_id := payment.payment_id
            recommended_connector := best_connector.connector
            confidence := best_connector.score
            alternatives := rest
            rationale := generateRationale best_connector
            was_correct := none }
        (.ok decision,
         { s with decision_cache :=
             lruPut s.decision_cache payment.payment_id decision })

/-- Fresh zeroed entry created by `update_performance` on first sight of a
connector. -/
def zeroPerformance (connector : String) (now : Int) : ConnectorPerformance :=
  { connector := connector, success_count := 0, failure_count := 0
    total_latency_ms := 0, total_transactions := 0, last_updated := now }

/-- The per-record mutation performed by `update_performance`. -/
def applyPerformanceUpdate (perf : ConnectorPerformance) (success : Bool)
    (latency_ms : Nat) (now : Int) : ConnectorPerformance :=
  let perf :=
    if success then { perf with success_count := perf.success_count + 1 }
    else { perf with failure_count := perf.failure_count + 1 }
  { perf with total_latency_ms := perf.total_latency_ms + latency_ms
              total_transactions := perf.total_transactions + 1
              last_updated := now }

/-- `DecisionEngine::update_performance`. -/
def updatePerformance (cache : List (String × ConnectorPerformance))
    (connector : String) (success : Bool) (latency_ms : Nat) (now : Int) :
    List (String × ConnectorPerformance) :=
  updateAssoc cache connector (zeroPerformance connector now)
    (fun p => applyPerformanceUpdate p success latency_ms now)

/-! ## Self-healing service (`self_healing.rs`) -/

/-- `self_healing.rs::FailureTracker`. -/
structure FailureTracker where
  connector : String
  consecutive_failures : Nat
  total_failures : Nat
  last_failure : Int
  is_failed : Bool
deriving Repr, DecidableEq

/-- The mutable state of `self_healing.rs::SelfHealingService`. -/
structure HealingState where
  active_actions : List (Nat × HealingAction)
  action_history : List HealingAction
  connector_failures : List (String × FailureTracker)
deriving Repr, DecidableEq

/-- `SelfHealingService::new`. -/
def HealingState.init : HealingState := ⟨[], [], []⟩

/-- `SelfHealingService::track_failure`. -/
def trackFailure (cfg : SelfHealingConfig)
    (failures : List (String × FailureTracker)) (connector : String)
    (now : Int) : List (String × FailureTracker) :=
  updateAssoc failures connector
    ⟨connector, 0, 0, now, false⟩ (fun tracker =>
      let tracker := { tracker with
        consecutive_failures := tracker.consecutive_failures + 1
        total_failures := tracker.total_failures + 1
        last_failure := now }
      if cfg.failure_threshold ≤ tracker.consecutive_failures then
        { tracker with is_failed := true }
      else tracker)

/-- `SelfHealingService::reset_failure_tracking` (only an existing tracker is
reset). -/
def resetFailureTracking (failures : List (String × FailureTracker))
    (connector : String) : List (String × FailureTracker) :=
  failures.map (fun e =>
    if e.1 = connector then
      (e.1, { e.2 with consecutive_failures := 0, is_failed := false })
    else e)

/-- `SelfHealingService::should_heal_connector`. -/
def shouldHealConnector (cfg : SelfHealingConfig)
    (failures : List (String × FailureTracker)) (connector : String) : Bool :=
  match lookupAssoc failures connector with
  | some tracker => tracker.is_failed && cfg.auto_switch_connectors
  | none => false

/-- `SelfHealingService::should_retry_payment`: certain error codes are
never retried. -/
def shouldRetryPayment (event : PaymentEvent) : Bool :=
  match event.error_code with
  | some error_code =>
      if error_code = "invalid_card" ∨ error_code = "expired_card" ∨
          error_code = "insufficient_funds" then false
      else true
  | none => true

/-- `SelfHealingService::heal_connector_failure`: create a pending
`SwitchConnector` action, store it in the active map and return it (the
spawned background task touches no engine state). -/
def healConnectorFailure (s : HealingState) (event : PaymentEvent)
    (freshId : Nat) (now : Int) : Option HealingAction × HealingState :=
  let action : HealingAction :=
    { id := freshId, timestamp := now, action_type := .SwitchConnector
      target := event.payment_id, status := .Pending
      result_message := none, recovery_time_ms := none }
  (some action, { s with active_actions := (freshId, action) :: s.active_actions })

/-- `SelfHealingService::retry_payment`: create a pending `RetryPayment`
action, store it in the active map and return it (the spawned backoff task
touches no engine state). -/
def retryPayment (s : HealingState) (event : PaymentEvent)
    (freshId : Nat) (now : Int) : Option HealingAction × HealingState :=
  let action : HealingAction :=
    { id := freshId, timestamp := now, action_type := .RetryPayment
      target := event.payment_id, status := .Pending
      result_message := none, recovery_time_ms := none }
  (some action, { s with active_actions := (freshId, action) :: s.active_actions })

/-- `SelfHealingService::evaluate_event`. -/
def evaluateEvent (cfg : SelfHealingConfig) (s : HealingState)
    (event : PaymentEvent) (freshId : Nat) (now : Int) :
    Option HealingAction × HealingState :=
  if cfg.enabled = false then (none, s)
  else if event.status = "failed" then
    match event.connector with
    | some connector =>
        let s := { s with
          connector_failures := trackFailure cfg s.connector_failures connector now }
        if shouldHealConnector cfg s.connector_failures connector then
          healConnectorFailure s event freshId now
        else if shouldRetryPayment event then retryPayment s event freshId now
        else (none, s)
    | none =>
        if shouldRetryPayment event then retryPayment s event freshId now
        else (none, s)
  else if event.status = "succeeded" then
    match event.connector with
    | some connector =>
        (none, { s with
          connector_failures := resetFailureTracking s.connector_failures connector })
    | none => (none, s)
  else (none, s)

/-- `SelfHealingService::complete_action`. -/
def completeAction (s : HealingState) (action_id : Nat) (status : ActionStatus)
    (result : String) : HealingState :=
  match s.active_actions.find? (fun e => e.1 == action_id) with
  | none => s
  | some e =>
      let action := { e.2 with status := status, result_message := some result }
      { s with
        active_actions := s.active_actions.filter (fun x => x.1 != action_id)
        action_history := pushBounded 1000 s.action_history action }

/-! ## Resource manager (`resource_manager.rs`) -/

/-- `resource_manager.rs::ScalingEvent`. -/
structure ScalingEvent where
  timestamp : Int
  direction : ScalingDirection
  from_instances : Nat
  to_instances : Nat
  reason : String
deriving Repr, DecidableEq

/-- The mutable state of `resource_manager.rs::ResourceManager`. -/
structure ResourceState where
  current_instances : Nat
  metrics_history : List HealthMetrics
  last_scaling : Option Int
  scaling_history : List ScalingEvent
deriving Repr, DecidableEq

/-- `ResourceManager::new`. -/
def ResourceState.init (cfg : ResourceManagerConfig) : ResourceState :=
  { current_instances := cfg.min_instances, metrics_history := []
    last_scaling := none, scaling_history := [] }

/-- `ResourceManager::is_in_cooldown`. -/
def isInCooldown (cfg : ResourceManagerConfig) (s : ResourceState)
    (now : Int) : Bool :=
  match s.last_scaling with
  | some last_time => decide (now - last_time < (cfg.scale_cooldown_seconds : Int))
  | none => false

/-- The additive scoring pass of `ResourceManager::analyze_metrics`:
`(scale_up_score, scale_down_score, reasons)` accumulated over the five
gauge checks, in source order. -/
def scaleScores (cfg : ResourceManagerConfig) (metrics : HealthMetrics) :
    Nat × Nat × List String :=
  let acc : Nat × Nat × List String := (0, 0, [])
  let acc :=
    if cfg.cpu_scale_up_threshold < metrics.cpu_usage then
      (acc.1 + 2, acc.2.1,
       acc.2.2 ++ ["High CPU usage: " ++ toString metrics.cpu_usage ++ "%"])
    else if metrics.cpu_usage < cfg.cpu_scale_down_threshold then
      (acc.1, acc.2.1 + 1,
       acc.2.2 ++ ["Low CPU usage: " ++ toString metrics.cpu_usage ++ "%"])
    else acc
  let acc :=
    if cfg.memory_scale_up_threshold < metrics.memory_usage then
      (acc.1 + 2, acc.2.1,
       acc.2.2 ++ ["High memory usage: " ++ toString metrics.memory_usage ++ "%"])
    else if metrics.memory_usage < cfg.memory_scale_down_threshold then
      (acc.1, acc.2.1 + 1,
       acc.2.2 ++ ["Low memory usage: " ++ toString metrics.memory_usage ++ "%"])
    else acc
  let acc :=
    if 1000 < metrics.request_rate then
      (acc.1 + 1, acc.2.1,
       acc.2.2 ++ ["High request rate: " ++ toString metrics.request_rate ++ " req/s"])
    else if metrics.request_rate < 100 then
      (acc.1, acc.2.1 + 1,
       acc.2.2 ++ ["Low request rate: " ++ toString metrics.request_rate ++ " req/s"])
    else acc
  let acc :=
    if 5 < metrics.error_rate then
      (acc.1 + 1, acc.2.1,
       acc.2.2 ++ ["High error rate: " ++ toString metrics.error_rate ++ "%"])
    else acc
  let acc :=
    if 100 < metrics.queue_depth then
      (acc.1 + 2, acc.2.1,
       acc.2.2 ++ ["High queue depth: " ++ toString metrics.queue_depth])
    else acc
  acc

/-- `ResourceManager::analyze_metrics`: additive up/down scoring followed by
a clamped one-step target. -/
def analyzeMetrics (cfg : ResourceManagerConfig) (metrics : HealthMetrics)
    (current_instances : Nat) (freshId : Nat) (now : Int) :
    ScalingRecommendation :=
  let acc := scaleScores cfg metrics
  let scale_up_score := acc.1
  let scale_down_score := acc.2.1
  let reasons := acc.2.2
  let dtr : ScalingDirection × Nat × String :=
    if 2 ≤ scale_up_score then
      let target := min (current_instances + 1) cfg.max_instances
      (if current_instances < target then .Up else .NoChange, target,
       String.intercalate "; " reasons)
    else if 2 ≤ scale_down_score ∧ cfg.min_instances < current_instances then
      let target := max (current_instances - 1) cfg.min_instances
      (.Down, target, String.intercalate "; " reasons)
    else (.NoChange, current_instances, "No scaling needed")
  let expected_impact :=
    match dtr.1 with
    | .Up => "Increased capacity, improved response times, reduced error rate"
    | .Down => "Reduced costs, maintained service levels"
    | .NoChange => "No impact"
  { id := freshId, timestamp := now, direction := dtr.1
    target_instances := dtr.2.1, current_instances := current_instances
    reason := dtr.2.2, expected_impact := expected_impact
    auto_apply := cfg.enable_auto_scaling }

/-- `ResourceManager::evaluate_scaling`. -/
def evaluateScaling (cfg : ResourceManagerConfig) (s : ResourceState)
    (metrics : HealthMetrics) (freshId : Nat) (now : Int) :
    Option ScalingRecommendation × ResourceState :=
  if cfg.enable_auto_scaling = false then (none, s)
  else
    let s := { s with metrics_history := pushBounded 1000 s.metrics_history metrics }
    if isInCooldown cfg s now then (none, s)
    else (some (analyzeMetrics cfg metrics s.current_instances freshId now), s)

/-- `ResourceManager::execute_scaling`: the sole mutator of the live instance
count and cooldown timestamp. -/
def executeScaling (s : ResourceState) (recommendation : ScalingRecommendation)
    (now : Int) : ResourceState :=
  if recommendation.direction = .NoChange then s
  else
    { current_instances := recommendation.target_instances
      metrics_history := s.metrics_history
      last_scaling := some now
      scaling_history := pushBounded 100 s.scaling_history
        { timestamp := now, direction := recommendation.direction
          from_instances := s.current_instances
          to_instances := recommendation.target_instances
          reason := recommendation.reason } }

/-- States of the resource manager reachable by any interleaving of
`evaluate_scaling` calls and applications (`execute_scaling`) of
recommendations just emitted by `evaluate_scaling`. -/
inductive ReachableResource (cfg : ResourceManagerConfig) : ResourceState → Prop where
  | init : ReachableResource cfg (ResourceState.init cfg)
  | eval (s : ResourceState) (m : HealthMetrics) (freshId : Nat) (now : Int) :
      ReachableResource cfg s →
      ReachableResource cfg (evaluateScaling cfg s m freshId now).2
  | exec (s : ResourceState) (m : HealthMetrics) (freshId : Nat)
      (now now' : Int) (r : ScalingRecommendation) :
      ReachableResource cfg s →
      (evaluateScaling cfg s m freshId now).1 = some r →
      ReachableResource cfg
        (executeScaling (evaluateScaling cfg s m freshId now).2 r now')

/-- Routing a batch of events through `make_routing_decision`, threading the
engine state and discarding the returned decisions. -/
def routeAll (s : DecisionState) (evs : List (PaymentEvent × Nat × Int)) :
    DecisionState :=
  evs.foldl (fun s x => (makeRoutingDecision s x.1 x.2.1 x.2.2).2) s

/-- Cache-shape invariant behind the idempotence argument: the decision `d`
for payment `p` sits in the LRU list, and every entry more recently used
than it has a key drawn from the finite set `A` of other routed payment
ids (with no duplicate keys ahead of `p`, and `p` itself not ahead). -/
def CacheInv (A : Finset String) (p : String) (d : RoutingDecision)
    (c : List (String × RoutingDecision)) : Prop :=
  ∃ pre post, c = pre ++ (p, d) :: post ∧
    (pre.map Prod.fst).Nodup ∧
    (∀ k ∈ pre.map Prod.fst, k ∈ A) ∧
    p ∉ pre.map Prod.fst

/-- The analytics state after folding a sequence of (event, clock) pairs
through `process_event`, starting from a fresh engine. -/
def foldAnalytics (cfg : AnalyticsConfig) (evs : List (PaymentEvent × Int)) :
    AnalyticsState :=
  evs.foldl (fun s e => processEvent cfg s e.1 e.2) AnalyticsState.init

/-- The counter equation and derived rate bounds claimed for every connector
performance record. -/
def perfInvariant (p : ConnectorPerformance) : Prop :=
  p.success_count + p.failure_count = p.total_transactions ∧
  0 ≤ p.success_rate ∧ p.success_rate ≤ 1

/-- One `update_performance` call seen from a single record: the mutation
applied to the connector's entry (`applyPerformanceUpdate`). -/
def foldPerformance (connector : String) (now₀ : Int)
    (updates : List (Bool × Nat × Int)) : ConnectorPerformance :=
  updates.foldl (fun p u => applyPerformanceUpdate p u.1 u.2.1 u.2.2)
    (zeroPerformance connector now₀)

/-! ## Concrete sample inputs used by witnesses and counterexamples -/

/-- A sample payment event. -/
def sampleEvent (pid status : String) (amount : Option Int)
    (error_code : Option String) : PaymentEvent :=
  { event_id := "evt_1", timestamp := 0, payment_id := pid
    merchant_id := "merchant_test", connector := some "stripe"
    payment_method := some "card", amount := amount
    currency := some "USD", status := status, error_code := error_code
    error_message := none }

/-- The default analytics configuration (`config.rs::Default`). -/
def analyticsCfgDefault : AnalyticsConfig :=
  { enabled := true, aggregation_interval_minutes := 15, retention_days := 90
    enable_predictions := true, forecast_horizon_days := 7 }

/-- The default analytics configuration with predictions disabled. -/
def analyticsCfgNoPredictions : AnalyticsConfig :=
  { analyticsCfgDefault with enable_predictions := false }

/-- An analytics state holding a 100-point forecast buffer. -/
def analyticsStateFull : AnalyticsState :=
  { AnalyticsState.init with
      time_series_data := List.replicate 100 ⟨1, 100⟩ }

/-- The default self-healing configuration but with `failure_threshold = 1`,
so a single failure flips the connector to the Failed state. -/
def healingCfgEager : SelfHealingConfig :=
  { enabled := true, max_retry_attempts := 3, initial_retry_delay_seconds := 2
    retry_backoff_multiplier := 2, auto_switch_connectors := true
    failure_threshold := 1 }

/-- The default self-healing configuration (`failure_threshold = 5`). -/
def healingCfgDefault : SelfHealingConfig :=
  { healingCfgEager with failure_threshold := 5 }

/-- The default resource-manager configuration (`config.rs::Default`). -/
def resourceCfgDefault : ResourceManagerConfig :=
  { enable_auto_scaling := true, cpu_scale_up_threshold := 75
    cpu_scale_down_threshold := 30, memory_scale_up_threshold := 80
    memory_scale_down_threshold := 40, min_instances := 1, max_instances := 10
    scale_cooldown_seconds := 300 }

/-- A quiet health sample (all gauges in the no-change band). -/
def sampleMetrics : HealthMetrics :=
  { timestamp := 0, cpu_usage := 50, memory_usage := 50
    active_connections := 10, request_rate := 500, avg_response_time_ms := 20
    error_rate := 1, queue_depth := 10, db_pool_usage := 10
    redis_pool_usage := 10 }

/-- An amount window of 20 points alternating 100/200 (variance 2500). -/
def amountWindowSpread : List TimePoint :=
  (List.replicate 10 (⟨0, 100⟩ : TimePoint)) ++ List.replicate 10 ⟨0, 200⟩

/-- An amount window of 20 integer points with tiny variance (19/400 < 1):
nineteen points at 100 and one at 101. -/
def amountWindowTight : List TimePoint :=
  (List.replicate 19 (⟨0, 100⟩ : TimePoint)) ++ [⟨0, 101⟩]

/-- A time series around a given amount window. -/
def tsWithAmounts (w : List TimePoint) : TimeSeries :=
  { payment_volumes := [], success_rates := [], average_amounts := w
    latencies := [], max_points := 3600 }

/-- The default anomaly-detection configuration (`config.rs::Default`). -/
def anomalyCfgDefault : AnomalyDetectionConfig :=
  { enabled := true, sensitivity := 85/100, window_size_minutes := 60
    alert_threshold := 5, enable_fraud_detection := true }

/-- A fallback routing decision used only to destructure `Except` results. -/
def dummyDecision : RoutingDecision :=
  { id := 0, timestamp := 0, payment_id := "", recommended_connector := ""
    confidence := 0, alternatives := [], rationale := "", was_correct := none }

/-! ## Helper lemmas about the bounded push and the stable sort -/

theorem pushBounded_length_le {α : Type} {cap : Nat} (hcap : 1 ≤ cap)
    (queue : List α) (hq : queue.length ≤ cap) (x : α) :
    (pushBounded cap queue x).length ≤ cap := by
  unfold pushBounded
  by_cases h : cap ≤ queue.length
  · simp only [if_pos h, List.length_append, List.length_drop, List.length_cons,
      List.length_nil]
    omega
  · simp only [if_neg h, List.length_append, List.length_cons, List.length_nil]
    omega

theorem pushBounded_getLast {α : Type} (cap : Nat) (queue : List α) (x : α) :
    (pushBounded cap queue x).getLast? = some x := by
  unfold pushBounded
  by_cases h : cap ≤ queue.length <;> simp [h]

theorem pushBounded_evicts_front {α : Type} (cap : Nat) (queue : List α) (x : α)
    (h : cap ≤ queue.length) : pushBounded cap queue x = queue.drop 1 ++ [x] := by
  simp [pushBounded, h]

theorem foldl_pushBounded_length_le {α : Type} {cap : Nat} (hcap : 1 ≤ cap)
    (queue : List α) (hq : queue.length ≤ cap) (xs : List α) :
    (xs.foldl (pushBounded cap) queue).length ≤ cap := by
  induction xs generalizing queue with
  | nil => simpa using hq
  | cons y ys ih =>
      simp only [List.foldl_cons]
      exact ih _ (pushBounded_length_le hcap queue hq y)

theorem length_insertDescBy {α : Type} (key : α → ℚ) (x : α) (l : List α) :
    (insertDescBy key x l).length = l.length + 1 := by
  induction l with
  | nil => rfl
  | cons y ys ih =>
      unfold insertDescBy
      by_cases h : key y ≤ key x <;> simp [h, ih]

theorem length_sortDescBy {α : Type} (key : α → ℚ) (l : List α) :
    (sortDescBy key l).length = l.length := by
  induction l with
  | nil => rfl
  | cons x xs ih => simp [sortDescBy, length_insertDescBy, ih]

theorem applyPerformanceUpdate_counters (p : ConnectorPerformance)
    (success : Bool) (latency_ms : Nat) (now : Int)
    (h : p.success_count + p.failure_count = p.total_transactions) :
    (applyPerformanceUpdate p success latency_ms now).success_count +
      (applyPerformanceUpdate p success latency_ms now).failure_count =
      (applyPerformanceUpdate p success latency_ms now).total_transactions := by
  unfold applyPerformanceUpdate
  cases success <;> simp <;> omega

theorem success_rate_bounds (p : ConnectorPerformance)
    (h : p.success_count ≤ p.total_transactions) :
    0 ≤ p.success_rate ∧ p.success_rate ≤ 1 := by
  unfold ConnectorPerformance.success_rate
  split
  · norm_num
  next h0 =>
    have hpos : (0 : ℚ) < (p.total_transactions : ℚ) := by
      exact_mod_cast Nat.pos_of_ne_zero h0
    refine ⟨by positivity, ?_⟩
    rw [div_le_one hpos]
    exact_mod_cast h

theorem foldPerformance_counters (connector : String) (now₀ : Int)
    (updates : List (Bool × Nat × Int)) :
    (foldPerformance connector now₀ updates).success_count +
      (foldPerformance connector now₀ updates).failure_count =
      (foldPerformance connector now₀ updates).total_transactions := by
  unfold foldPerformance
  generalize hstart : zeroPerformance connector now₀ = p₀
  have hp₀ : p₀.success_count + p₀.failure_count = p₀.total_transactions := by
    rw [← hstart]; rfl
  clear hstart
  induction updates generalizing p₀ with
  | nil => simpa using hp₀
  | cons u us ih =>
      simp only [List.foldl_cons]
      exact ih _ (applyPerformanceUpdate_counters p₀ u.1 u.2.1 u.2.2 hp₀)

/-! ## C10 -/

/-- **C10**: every performance record reachable by a sequence of
`update_performance` calls from the zeroed entry satisfies
`success_count + failure_count = total_transactions` and hence
`success_rate()` lies in `[0, 1]`; the seeded cold-start prior
(80/20/100) satisfies the same equation and bounds. -/
theorem C10_performance_record_invariant :
    (∀ (connector : String) (now₀ : Int) (updates : List (Bool × Nat × Int)),
      perfInvariant (foldPerformance connector now₀ updates)) ∧
    (∀ (connector : String) (now : Int), perfInvariant (seededPrior connector now)) := by
  constructor
  · intro connector now₀ updates
    have hc := foldPerformance_counters connector now₀ updates
    exact ⟨hc, success_rate_bounds _ (by omega)⟩
  · intro connector now
    refine ⟨rfl, success_rate_bounds _ ?_⟩
    show 80 ≤ 100
    omega

/-! ## C9 -/

/-- **C9**: for the bounded rings of the crate (all pushed with
`pushBounded`, of which `TimeSeries::add_point` — the rolling windows —,
the anomaly history, the healing-action history in `complete_action`, the
metrics history and the scaling history are the instances), any number of
insertions never grows the ring beyond its capacity, eviction removes the
front (oldest) entry exactly when the ring is full, and the entry just
inserted is always the back element. -/
theorem C9_bounded_rings_fifo {α : Type} (cap : Nat) (hcap : 1 ≤ cap)
    (q₀ : List α) (hq : q₀.length ≤ cap) (xs : List α) :
    ((xs.foldl (pushBounded cap) q₀).length ≤ cap) ∧
    (∀ (q : List α) (x : α), cap ≤ q.length →
      pushBounded cap q x = q.drop 1 ++ [x]) ∧
    (∀ (q : List α) (x : α), q.length < cap → pushBounded cap q x = q ++ [x]) ∧
    (∀ (q : List α) (x : α), (pushBounded cap q x).getLast? = some x) ∧
    (∀ (q : List TimePoint) (point : TimePoint),
      TimeSeries.addPoint q point cap = pushBounded cap q point) :=
  ⟨foldl_pushBounded_length_le hcap q₀ hq xs,
   fun q x h => pushBounded_evicts_front cap q x h,
   fun q x h => by simp [pushBounded, Nat.not_le.mpr h],
   fun q x => pushBounded_getLast cap q x,
   fun _ _ => rfl⟩

theorem C9_witness :
    ((([1, 2, 3, 4] : List Nat).foldl (pushBounded 3) []).length ≤ 3) ∧
    (pushBounded 3 ([5, 6, 7] : List Nat) 9 = ([5, 6, 7] : List Nat).drop 1 ++ [9]) ∧
    (pushBounded 3 ([5, 6] : List Nat) 9 = [5, 6] ++ [9]) ∧
    ((pushBounded 3 ([5, 6] : List Nat) 9).getLast? = some 9) ∧
    (TimeSeries.addPoint [⟨0, 1⟩] ⟨1, 2⟩ 3 = pushBounded 3 [⟨0, 1⟩] ⟨1, 2⟩) :=
  ⟨(C9_bounded_rings_fifo 3 (by decide) ([] : List Nat) (by decide) [1, 2, 3, 4]).1,
   (C9_bounded_rings_fifo 3 (by decide) ([] : List Nat) (by decide) []).2.1
     [5, 6, 7] 9 (by decide),
   (C9_bounded_rings_fifo 3 (by decide) ([] : List Nat) (by decide) []).2.2.1
     [5, 6] 9 (by decide),
   (C9_bounded_rings_fifo 3 (by decide) ([] : List Nat) (by decide) []).2.2.2.1
     [5, 6] 9,
   (C9_bounded_rings_fifo 3 (by decide) ([] : List TimePoint) (by decide) []).2.2.2.2
     [⟨0, 1⟩] ⟨1, 2⟩⟩

/-! ## C3 -/

/-- **C3** (code bug): for the volume detector as implemented, both the
recent figure and the baseline figure are `.count()`s of point lists, so for
any window of at least 10 points the ratio is `5 / 5 = 1.0` and the detector
returns `none`; no window contents can make it fire `VolumeSpike` or
`VolumeDrop`, although the surrounding code (result types, alert messages,
`test_anomaly_detector_volume_spike`) plainly intends it to fire. -/
theorem C3_volume_detector_never_fires (ts : TimeSeries) (freshId : Nat)
    (now : Int) : detectVolumeAnomaly ts freshId now = none := by
  unfold detectVolumeAnomaly
  by_cases h : ts.payment_volumes.length < 10
  · simp [h]
  · have hn : 10 ≤ ts.payment_volumes.length := Nat.le_of_not_lt h
    simp only [if_neg h]
    have h5 : (ts.payment_volumes.reverse.take 5).length = 5 := by
      simp only [List.length_take, List.length_reverse]
      omega
    have hbase : (ts.payment_volumes.take (ts.payment_volumes.length - 5)).length
        = ts.payment_volumes.length - 5 := by
      simp [List.length_take]
    have hmax : max (ts.payment_volumes.length - 5) 1
        = ts.payment_volumes.length - 5 := by omega
    rw [h5, hbase, hmax]
    have hne : ((ts.payment_volumes.length - 5 : Nat) : ℚ) ≠ 0 := by
      have h5' : 5 ≤ ts.payment_volumes.length - 5 := by omega
      exact_mod_cast Nat.pos_iff_ne_zero.mp (by omega)
    rw [div_self hne]
    norm_num

/-! ## C4 -/

/-- **C4** (counterexample): with `enable_predictions = false` and a full
100-point buffer, `predict` returns a `Computation` *error*, not an
empty/no-op result, refuting the claim that a disabled toggle never yields
an error. -/
theorem C4_counterexample_predict_disabled :
    predict analyticsCfgNoPredictions analyticsStateFull "payment_volume" 0 0
        (fun _ => 1/2) =
      .error (.Computation "Predictions are disabled") := by
  rfl

/-- **C4** (amended): a disabled toggle makes anomaly analysis, self-healing
evaluation, scaling evaluation and analytics event processing no-ops
(`None` / unchanged state, never an error), but `predict` with
`enable_predictions = false` fails with a `Computation` error instead. -/
theorem C4_disabled_engines_amended :
    (∀ (cfg : AnomalyDetectionConfig) (s : AnomalyState) (event : PaymentEvent)
        (fresh : Nat → Nat) (now : Int), cfg.enabled = false →
      analyzeEvent cfg s event fresh now = (none, s)) ∧
    (∀ (cfg : SelfHealingConfig) (s : HealingState) (event : PaymentEvent)
        (freshId : Nat) (now : Int), cfg.enabled = false →
      evaluateEvent cfg s event freshId now = (none, s)) ∧
    (∀ (cfg : ResourceManagerConfig) (s : ResourceState) (m : HealthMetrics)
        (freshId : Nat) (now : Int), cfg.enable_auto_scaling = false →
      evaluateScaling cfg s m freshId now = (none, s)) ∧
    (∀ (cfg : AnalyticsConfig) (s : AnalyticsState) (event : PaymentEvent)
        (now : Int), cfg.enabled = false →
      processEvent cfg s event now = s) ∧
    (∀ (cfg : AnalyticsConfig) (s : AnalyticsState) (metric : String)
        (freshId : Nat) (now : Int) (jitter : Nat → ℚ),
        cfg.enable_predictions = false →
      predict cfg s metric freshId now jitter =
        .error (.Computation "Predictions are disabled")) := by
  refine ⟨?_, ?_, ?_, ?_, ?_⟩
  · intro cfg s event fresh now h
    unfold analyzeEvent
    simp [h]
  · intro cfg s event freshId now h
    unfold evaluateEvent
    simp [h]
  · intro cfg s m freshId now h
    unfold evaluateScaling
    simp [h]
  · intro cfg s event now h
    unfold processEvent
    simp [h]
  · intro cfg s metric freshId now jitter h
    unfold predict
    simp [h]

theorem C4_witness :
    (analyzeEvent { anomalyCfgDefault with enabled := false }
        ⟨tsWithAmounts [], []⟩ (sampleEvent "p" "failed" none none)
        (fun _ => 0) 0 = (none, ⟨tsWithAmounts [], []⟩)) ∧
    (evaluateEvent { healingCfgDefault with enabled := false }
        HealingState.init (sampleEvent "p" "failed" none none) 0 0 =
      (none, HealingState.init)) ∧
    (evaluateScaling { resourceCfgDefault with enable_auto_scaling := false }
        (ResourceState.init resourceCfgDefault) sampleMetrics 0 0 =
      (none, ResourceState.init resourceCfgDefault)) ∧
    (processEvent { analyticsCfgDefault with enabled := false }
        AnalyticsState.init (sampleEvent "p" "succeeded" (some 1) none) 0 =
      AnalyticsState.init) ∧
    (predict analyticsCfgNoPredictions AnalyticsState.init "payment_volume" 0 0
        (fun _ => 0) = .error (.Computation "Predictions are disabled")) :=
  ⟨C4_disabled_engines_amended.1 _ _ _ _ _ rfl,
   C4_disabled_engines_amended.2.1 _ _ _ _ _ rfl,
   C4_disabled_engines_amended.2.2.1 _ _ _ _ _ rfl,
   C4_disabled_engines_amended.2.2.2.1 _ _ _ _ rfl,
   C4_disabled_engines_amended.2.2.2.2 _ _ _ _ _ _ rfl⟩

/-! ## C8 -/

theorem processEvent_succeeded_inv (cfg : AnalyticsConfig) (s : AnalyticsState)
    (event : PaymentEvent) (now : Int) (he : event.status = "succeeded")
    (h1 : s.metrics.successful_payments = s.metrics.total_payments)
    (h2 : s.metrics.failed_payments = 0) :
    (processEvent cfg s event now).metrics.successful_payments =
      (processEvent cfg s event now).metrics.total_payments ∧
    (processEvent cfg s event now).metrics.failed_payments = 0 := by
  unfold processEvent
  by_cases hen : cfg.enabled = false
  · simp [hen, h1, h2]
  · cases ha : event.amount <;> simp [hen, he, ha, h1, h2]

theorem foldAnalytics_inv (cfg : AnalyticsConfig) (evs : List (PaymentEvent × Int))
    (hsucc : ∀ e ∈ evs, e.1.status = "succeeded") :
    (foldAnalytics cfg evs).metrics.successful_payments =
      (foldAnalytics cfg evs).metrics.total_payments ∧
    (foldAnalytics cfg evs).metrics.failed_payments = 0 := by
  unfold foldAnalytics
  generalize hstart : AnalyticsState.init = s₀
  have h0 : s₀.metrics.successful_payments = s₀.metrics.total_payments ∧
      s₀.metrics.failed_payments = 0 := by rw [← hstart]; exact ⟨rfl, rfl⟩
  clear hstart
  induction evs generalizing s₀ with
  | nil => simpa using h0
  | cons e es ih =>
      simp only [List.foldl_cons]
      exact ih (fun x hx => hsucc x (List.mem_cons_of_mem e hx)) _
        (processEvent_succeeded_inv cfg s₀ e.1 e.2
          (hsucc e (List.mem_cons_self e es)) h0.1 h0.2)

/-- **C8**: after any sequence of `"succeeded"` events, the analytics
summary satisfies `successful_payments + failed_payments = total_payments`
and `success_rate = successful / total` (`0` when `total = 0`, which in `ℚ`
coincides with the division formula). -/
theorem C8_summary_accounting (cfg : AnalyticsConfig)
    (evs : List (PaymentEvent × Int))
    (hsucc : ∀ e ∈ evs, e.1.status = "succeeded") :
    (getSummary (foldAnalytics cfg evs)).successful_payments +
        (getSummary (foldAnalytics cfg evs)).failed_payments =
      (getSummary (foldAnalytics cfg evs)).total_payments ∧
    (getSummary (foldAnalytics cfg evs)).success_rate =
      ((getSummary (foldAnalytics cfg evs)).successful_payments : ℚ) /
        ((getSummary (foldAnalytics cfg evs)).total_payments : ℚ) ∧
    ((getSummary (foldAnalytics cfg evs)).total_payments = 0 →
      (getSummary (foldAnalytics cfg evs)).success_rate = 0) := by
  obtain ⟨h1, h2⟩ := foldAnalytics_inv cfg evs hsucc
  set s := foldAnalytics cfg evs
  refine ⟨?_, ?_, ?_⟩
  · simp only [getSummary]
    omega
  · simp only [getSummary]
    by_cases ht : 0 < s.metrics.total_payments
    · simp [ht]
    · have ht0 : s.metrics.total_payments = 0 := by omega
      have hs0 : s.metrics.successful_payments = 0 := by omega
      simp [ht, ht0, hs0]
  · intro htz
    have ht0 : s.metrics.total_payments = 0 := by
      simpa [getSummary] using htz
    simp [getSummary, ht0]

theorem C8_witness :
    (getSummary (foldAnalytics analyticsCfgDefault
        [(sampleEvent "pay_1" "succeeded" (some 100) none, 0)])).successful_payments +
      (getSummary (foldAnalytics analyticsCfgDefault
        [(sampleEvent "pay_1" "succeeded" (some 100) none, 0)])).failed_payments =
      (getSummary (foldAnalytics analyticsCfgDefault
        [(sampleEvent "pay_1" "succeeded" (some 100) none, 0)])).total_payments ∧
    (getSummary (foldAnalytics analyticsCfgDefault
        [(sampleEvent "pay_1" "succeeded" (some 100) none, 0)])).success_rate =
      ((getSummary (foldAnalytics analyticsCfgDefault
        [(sampleEvent "pay_1" "succeeded" (some 100) none, 0)])).successful_payments : ℚ) /
        ((getSummary (foldAnalytics analyticsCfgDefault
          [(sampleEvent "pay_1" "succeeded" (some 100) none, 0)])).total_payments : ℚ) ∧
    ((getSummary (foldAnalytics analyticsCfgDefault
        [(sampleEvent "pay_1" "succeeded" (some 100) none, 0)])).total_payments = 0 →
      (getSummary (foldAnalytics analyticsCfgDefault
        [(sampleEvent "pay_1" "succeeded" (some 100) none, 0)])).success_rate = 0) :=
  C8_summary_accounting analyticsCfgDefault
    [(sampleEvent "pay_1" "succeeded" (some 100) none, 0)]
    (by decide)

/-! ## C2 -/

/-- **C2** (counterexample): with `failure_threshold = 1`, auto-switch on
and a retriable error code, a single failed event on `stripe` puts the
connector in the Failed state (the claim's premise holds: the tracker is
failed, auto-switch is enabled, `should_retry_payment` is true), yet
`evaluate_event` launches only the `SwitchConnector` action — `evaluate`
returns it early and no `RetryPayment` action is ever created. -/
theorem C2_counterexample_switch_without_retry :
    (shouldHealConnector healingCfgEager
        (trackFailure healingCfgEager [] "stripe" 0) "stripe" = true) ∧
    (shouldRetryPayment
        (sampleEvent "pay_1" "failed" (some 10000) (some "processing_error")) = true) ∧
    ((evaluateEvent healingCfgEager HealingState.init
        (sampleEvent "pay_1" "failed" (some 10000) (some "processing_error"))
        7 0).2.active_actions.map (fun a => a.2.action_type) =
      [HealingActionType.SwitchConnector]) ∧
    ((evaluateEvent healingCfgEager HealingState.init
        (sampleEvent "pay_1" "failed" (some 10000) (some "processing_error"))
        7 0).1.map (fun a => a.action_type) =
      some HealingActionType.SwitchConnector) :=
  ⟨rfl, rfl, rfl, rfl⟩

/-- **C2** (amended): on a failed event whose connector is (after tracking
this failure) in the Failed state with auto-switch enabled, `evaluate_event`
launches a `SwitchConnector` action and returns immediately — it does *not*
also launch a `RetryPayment`; a `RetryPayment` action is launched only when
the connector-switch branch is not taken and the error code is outside the
non-retriable set. -/
theorem C2_switch_preempts_retry (cfg : SelfHealingConfig) (s : HealingState)
    (event : PaymentEvent) (connector : String) (freshId : Nat) (now : Int)
    (hen : cfg.enabled = true) (hst : event.status = "failed")
    (hconn : event.connector = some connector) :
    (shouldHealConnector cfg (trackFailure cfg s.connector_failures connector now)
        connector = true →
      ∃ a, a.action_type = HealingActionType.SwitchConnector ∧
        evaluateEvent cfg s event freshId now =
          (some a,
           { s with
              connector_failures :=
                trackFailure cfg s.connector_failures connector now
              active_actions := (freshId, a) :: s.active_actions })) ∧
    (shouldHealConnector cfg (trackFailure cfg s.connector_failures connector now)
        connector = false →
      shouldRetryPayment event = true →
      ∃ a, a.action_type = HealingActionType.RetryPayment ∧
        evaluateEvent cfg s event freshId now =
          (some a,
           { s with
              connector_failures :=
                trackFailure cfg s.connector_failures connector now
              active_actions := (freshId, a) :: s.active_actions })) := by
  constructor
  · intro hheal
    refine ⟨{ id := freshId, timestamp := now
              action_type := HealingActionType.SwitchConnector
              target := event.payment_id, status := .Pending
              result_message := none, recovery_time_ms := none }, rfl, ?_⟩
    unfold evaluateEvent
    simp [hen, hst, hconn, hheal, healConnectorFailure]
  · intro hheal hretry
    refine ⟨{ id := freshId, timestamp := now
              action_type := HealingActionType.RetryPayment
              target := event.payment_id, status := .Pending
              result_message := none, recovery_time_ms := none }, rfl, ?_⟩
    unfold evaluateEvent
    simp [hen, hst, hconn, hheal, hretry, retryPayment]

theorem C2_witness :
    (∃ a, a.action_type = HealingActionType.SwitchConnector ∧
      evaluateEvent healingCfgEager HealingState.init
          (sampleEvent "pay_1" "failed" (some 10000) (some "processing_error")) 7 0 =
        (some a,
         { HealingState.init with
            connector_failures :=
              trackFailure healingCfgEager HealingState.init.connector_failures
                "stripe" 0
            active_actions := (7, a) :: HealingState.init.active_actions })) ∧
    (∃ a, a.action_type = HealingActionType.RetryPayment ∧
      evaluateEvent healingCfgDefault HealingState.init
          (sampleEvent "pay_1" "failed" (some 10000) (some "processing_error")) 7 0 =
        (some a,
         { HealingState.init with
            connector_failures :=
              trackFailure healingCfgDefault HealingState.init.connector_failures
                "stripe" 0
            active_actions := (7, a) :: HealingState.init.active_actions })) :=
  ⟨(C2_switch_preempts_retry healingCfgEager HealingState.init
      (sampleEvent "pay_1" "failed" (some 10000) (some "processing_error"))
      "stripe" 7 0 rfl rfl rfl).1 rfl,
   (C2_switch_preempts_retry healingCfgDefault HealingState.init
      (sampleEvent "pay_1" "failed" (some 10000) (some "processing_error"))
      "stripe" 7 0 rfl rfl rfl).2 rfl rfl⟩

/-! ## C5 -/

theorem evaluateScaling_current (cfg : ResourceManagerConfig) (s : ResourceState)
    (m : HealthMetrics) (freshId : Nat) (now : Int) :
    (evaluateScaling cfg s m freshId now).2.current_instances =
      s.current_instances := by
  unfold evaluateScaling
  by_cases h1 : cfg.enable_auto_scaling = false
  · simp [h1]
  · by_cases h2 : isInCooldown cfg
        { s with metrics_history := pushBounded 1000 s.metrics_history m } now <;>
      simp [h1, h2]

theorem evaluateScaling_fst_some (cfg : ResourceManagerConfig) (s : ResourceState)
    (m : HealthMetrics) (freshId : Nat) (now : Int) (r : ScalingRecommendation)
    (h : (evaluateScaling cfg s m freshId now).1 = some r) :
    r = analyzeMetrics cfg m s.current_instances freshId now := by
  unfold evaluateScaling at h
  by_cases h1 : cfg.enable_auto_scaling = false
  · simp [h1] at h
  · by_cases h2 : isInCooldown cfg
        { s with metrics_history := pushBounded 1000 s.metrics_history m } now
    · simp [h1, h2] at h
    · simp [h1, h2] at h
      exact h.symm

theorem analyzeMetrics_target_bounds (cfg : ResourceManagerConfig)
    (m : HealthMetrics) (current : Nat) (freshId : Nat) (now : Int)
    (hmm : cfg.min_instances ≤ cfg.max_instances)
    (hc1 : cfg.min_instances ≤ current) (hc2 : current ≤ cfg.max_instances) :
    cfg.min_instances ≤ (analyzeMetrics cfg m current freshId now).target_instances ∧
      (analyzeMetrics cfg m current freshId now).target_instances ≤
        cfg.max_instances := by
  unfold analyzeMetrics
  dsimp only
  split_ifs <;> simp_all <;> omega

theorem reachable_instances_bounds (cfg : ResourceManagerConfig)
    (hmm : cfg.min_instances ≤ cfg.max_instances) (s : ResourceState)
    (h : ReachableResource cfg s) :
    cfg.min_instances ≤ s.current_instances ∧
      s.current_instances ≤ cfg.max_instances := by
  induction h with
  | init => exact ⟨Nat.le_refl _, hmm⟩
  | eval s m freshId now hr ih => rw [evaluateScaling_current]; exact ih
  | exec s m freshId now now' r hr hsome ih =>
      have hre := evaluateScaling_fst_some cfg s m freshId now r hsome
      have hb := analyzeMetrics_target_bounds cfg m s.current_instances freshId now
        hmm ih.1 ih.2
      rw [← hre] at hb
      unfold executeScaling
      split
      · rw [evaluateScaling_current]; exact ih
      · simpa using hb

/-- **C5**: the resource engine never emits a recommendation while the time
since the last applied scaling action is below the cooldown, and on every
state reachable by evaluate/apply sequences, any recommendation emitted by
`evaluate_scaling` has its target instance count within
`[min_instances, max_instances]` (assuming a well-formed configuration with
`min_instances ≤ max_instances`). -/
theorem C5_cooldown_and_clamping (cfg : ResourceManagerConfig)
    (hmm : cfg.min_instances ≤ cfg.max_instances) :
    (∀ (s : ResourceState) (m : HealthMetrics) (freshId : Nat) (now t : Int),
      s.last_scaling = some t → now - t < (cfg.scale_cooldown_seconds : Int) →
      (evaluateScaling cfg s m freshId now).1 = none) ∧
    (∀ (s : ResourceState) (m : HealthMetrics) (freshId : Nat) (now : Int)
        (r : ScalingRecommendation), ReachableResource cfg s →
      (evaluateScaling cfg s m freshId now).1 = some r →
      cfg.min_instances ≤ r.target_instances ∧
        r.target_instances ≤ cfg.max_instances) := by
  constructor
  · intro s m freshId now t hlast hcool
    unfold evaluateScaling
    by_cases h1 : cfg.enable_auto_scaling = false
    · simp [h1]
    · have hcd : isInCooldown cfg
          { s with metrics_history := pushBounded 1000 s.metrics_history m } now
          = true := by
        unfold isInCooldown
        have : ({ s with metrics_history := pushBounded 1000 s.metrics_history m }
            : ResourceState).last_scaling = some t := by rw [← hlast]
        rw [this]
        simpa using hcool
      simp [h1, hcd]
  · intro s m freshId now r hreach hsome
    have hre := evaluateScaling_fst_some cfg s m freshId now r hsome
    have hb := reachable_instances_bounds cfg hmm s hreach
    rw [hre]
    exact analyzeMetrics_target_bounds cfg m s.current_instances freshId now
      hmm hb.1 hb.2

theorem C5_witness :
    ((evaluateScaling resourceCfgDefault
        { ResourceState.init resourceCfgDefault with last_scaling := some 0 }
        sampleMetrics 0 10).1 = none) ∧
    (resourceCfgDefault.min_instances ≤
        (analyzeMetrics resourceCfgDefault sampleMetrics 1 0 0).target_instances ∧
      (analyzeMetrics resourceCfgDefault sampleMetrics 1 0 0).target_instances ≤
        resourceCfgDefault.max_instances) :=
  ⟨(C5_cooldown_and_clamping resourceCfgDefault (by decide)).1
      { ResourceState.init resourceCfgDefault with last_scaling := some 0 }
      sampleMetrics 0 10 0 rfl (by decide),
   (C5_cooldown_and_clamping resourceCfgDefault (by decide)).2
      (ResourceState.init resourceCfgDefault) sampleMetrics 0 0
      (analyzeMetrics resourceCfgDefault sampleMetrics 1 0 0)
      (ReachableResource.init) rfl⟩

/-! ## C6 -/

theorem sqrt_nine_mul (v : ℝ) (_hv : 0 ≤ v) :
    Real.sqrt (9 * v) = 3 * Real.sqrt v := by
  rw [Real.sqrt_mul (by norm_num : (0:ℝ) ≤ 9) v,
    show (9:ℝ) = 3 ^ 2 by norm_num, Real.sqrt_sq (by norm_num : (0:ℝ) ≤ 3)]

/-- **C6** (amended): for a rolling amount window of at least 20 points with
variance σ² > 0, an amount whose claimed z-score satisfies |z| ≤ 3 — stated
in `ℚ` as `(amount − μ)² ≤ 9·σ²` — never fires `UnusualPattern`; an amount
with `(amount − μ)² > 9·σ²` always fires *provided σ ≥ 1* (stated as
`1 ≤ σ²`), matching the source's flooring of the standard deviation at 1.0
before dividing. -/
theorem C6_amount_detector_zscore (ts : TimeSeries) (event : PaymentEvent)
    (amount : Int) (freshId : Nat) (now : Int)
    (ham : event.amount = some amount)
    (hlen : 20 ≤ ts.average_amounts.length)
    (hvar : 0 < amountVariance (ts.average_amounts.map (fun p => p.value))) :
    (((amount : ℚ) - amountMean (ts.average_amounts.map (fun p => p.value))) ^ 2 ≤
        9 * amountVariance (ts.average_amounts.map (fun p => p.value)) →
      detectAmountAnomaly ts event freshId now = none) ∧
    (1 ≤ amountVariance (ts.average_amounts.map (fun p => p.value)) →
      9 * amountVariance (ts.average_amounts.map (fun p => p.value)) <
        ((amount : ℚ) - amountMean (ts.average_amounts.map (fun p => p.value))) ^ 2 →
      ∃ a, detectAmountAnomaly ts event freshId now = some a ∧
        a.anomaly_type = AnomalyType.UnusualPattern) := by
  have hnlt : ¬ ts.average_amounts.length < 20 := Nat.not_lt.mpr hlen
  set values := ts.average_amounts.map (fun p => p.value) with hvalues
  set μ := amountMean values with hμ
  set v := amountVariance values with hv
  have hv0 : (0:ℝ) ≤ (v : ℝ) := by exact_mod_cast le_of_lt hvar
  set σ : ℝ := Real.sqrt (v : ℝ) with hσ
  have hσ0 : 0 ≤ σ := Real.sqrt_nonneg _
  have hmaxpos : (0:ℝ) < max σ 1 := lt_of_lt_of_le one_pos (le_max_right _ _)
  constructor
  · intro hin
    have hinR : (((amount : ℚ) : ℝ) - ((μ : ℚ) : ℝ)) ^ 2 ≤ 9 * ((v : ℚ) : ℝ) := by
      exact_mod_cast hin
    have habs : |((amount : ℚ) : ℝ) - ((μ : ℚ) : ℝ)| ≤ 3 * σ := by
      rw [← Real.sqrt_sq_eq_abs, ← sqrt_nine_mul _ hv0]
      exact Real.sqrt_le_sqrt hinR
    have hz : |((amount : ℚ) : ℝ) - ((μ : ℚ) : ℝ)| / max σ 1 ≤ 3 := by
      rw [div_le_iff₀ hmaxpos]
      calc |((amount : ℚ) : ℝ) - ((μ : ℚ) : ℝ)| ≤ 3 * σ := habs
        _ ≤ 3 * max σ 1 := by
            exact mul_le_mul_of_nonneg_left (le_max_left _ _) (by norm_num)
    unfold detectAmountAnomaly
    rw [ham]
    simp only [if_neg hnlt, ← hvalues, ← hμ, ← hv, ← hσ]
    rw [if_neg (not_lt.mpr hz)]
  · intro hge1 hout
    have hσ1 : 1 ≤ σ := by
      rw [hσ, show (1:ℝ) = Real.sqrt 1 from Real.sqrt_one.symm]
      exact Real.sqrt_le_sqrt (by exact_mod_cast hge1)
    have hmax : max σ 1 = σ := max_eq_left hσ1
    have houtR : 9 * ((v : ℚ) : ℝ) <
        (((amount : ℚ) : ℝ) - ((μ : ℚ) : ℝ)) ^ 2 := by exact_mod_cast hout
    have habs : 3 * σ < |((amount : ℚ) : ℝ) - ((μ : ℚ) : ℝ)| := by
      rw [← Real.sqrt_sq_eq_abs, ← sqrt_nine_mul _ hv0]
      exact Real.sqrt_lt_sqrt (by positivity) houtR
    have hz : 3 < |((amount : ℚ) : ℝ) - ((μ : ℚ) : ℝ)| / max σ 1 := by
      rw [hmax, lt_div_iff₀ (lt_of_lt_of_le one_pos hσ1)]
      linarith
    unfold detectAmountAnomaly
    rw [ham]
    simp only [if_neg hnlt, ← hvalues, ← hμ, ← hv, ← hσ]
    rw [if_pos hz]
    exact ⟨_, rfl, rfl⟩

theorem spread_values :
    (tsWithAmounts amountWindowSpread).average_amounts.map (fun p => p.value)
      = List.replicate 10 (100 : ℚ) ++ List.replicate 10 200 := by
  simp [tsWithAmounts, amountWindowSpread]

theorem spread_mean :
    amountMean ((tsWithAmounts amountWindowSpread).average_amounts.map
      (fun p => p.value)) = 150 := by
  rw [spread_values]
  unfold amountMean
  simp [List.sum_append, List.sum_replicate, nsmul_eq_mul]
  norm_num

theorem spread_variance :
    amountVariance ((tsWithAmounts amountWindowSpread).average_amounts.map
      (fun p => p.value)) = 2500 := by
  unfold amountVariance
  rw [spread_mean, spread_values]
  simp [List.sum_append, List.sum_replicate, nsmul_eq_mul]
  norm_num

theorem spread_variance_pos :
    0 < amountVariance ((tsWithAmounts amountWindowSpread).average_amounts.map
      (fun p => p.value)) := by
  rw [spread_variance]; norm_num

theorem spread_variance_ge_one :
    1 ≤ amountVariance ((tsWithAmounts amountWindowSpread).average_amounts.map
      (fun p => p.value)) := by
  rw [spread_variance]; norm_num

theorem spread_inlier :
    (((160 : Int) : ℚ) - amountMean
        ((tsWithAmounts amountWindowSpread).average_amounts.map
          (fun p => p.value))) ^ 2 ≤
      9 * amountVariance ((tsWithAmounts amountWindowSpread).average_amounts.map
        (fun p => p.value)) := by
  rw [spread_mean, spread_variance]; norm_num

theorem spread_outlier :
    9 * amountVariance ((tsWithAmounts amountWindowSpread).average_amounts.map
        (fun p => p.value)) <
      (((10000 : Int) : ℚ) - amountMean
        ((tsWithAmounts amountWindowSpread).average_amounts.map
          (fun p => p.value))) ^ 2 := by
  rw [spread_mean, spread_variance]; norm_num

theorem C6_witness :
    (detectAmountAnomaly (tsWithAmounts amountWindowSpread)
        (sampleEvent "pay_1" "succeeded" (some 160) none) 0 0 = none) ∧
    (∃ a, detectAmountAnomaly (tsWithAmounts amountWindowSpread)
        (sampleEvent "pay_2" "succeeded" (some 10000) none) 0 0 = some a ∧
      a.anomaly_type = AnomalyType.UnusualPattern) :=
  ⟨(C6_amount_detector_zscore (tsWithAmounts amountWindowSpread)
      (sampleEvent "pay_1" "succeeded" (some 160) none) 160 0 0 rfl
      (by decide) spread_variance_pos).1 spread_inlier,
   (C6_amount_detector_zscore (tsWithAmounts amountWindowSpread)
      (sampleEvent "pay_2" "succeeded" (some 10000) none) 10000 0 0 rfl
      (by decide) spread_variance_pos).2 spread_variance_ge_one spread_outlier⟩

theorem tight_values :
    (tsWithAmounts amountWindowTight).average_amounts.map (fun p => p.value)
      = List.replicate 19 (100 : ℚ) ++ [101] := by
  simp [tsWithAmounts, amountWindowTight]

theorem tight_mean :
    amountMean ((tsWithAmounts amountWindowTight).average_amounts.map
      (fun p => p.value)) = 2001/20 := by
  rw [tight_values]
  unfold amountMean
  simp [List.sum_append, List.sum_replicate, nsmul_eq_mul]
  norm_num

theorem tight_variance :
    amountVariance ((tsWithAmounts amountWindowTight).average_amounts.map
      (fun p => p.value)) = 19/400 := by
  unfold amountVariance
  rw [tight_mean, tight_values]
  simp [List.sum_append, List.sum_replicate, nsmul_eq_mul]
  norm_num

/-- **C6** (counterexample): a window of 20 integer amounts — nineteen at
100, one at 101 — has mean 2001/20 and variance 19/400 ∈ (0, 1); the amount
101 has claimed z-score |101 − μ|/σ ≈ 4.36 > 3 (here: `(101 − μ)² > 9σ²`),
yet the detector does not fire, because it divides by `max(σ, 1.0) = 1` and
gets 0.95 < 3.  So "an amount with |z| > 3 always makes it fire" is false
as stated for σ < 1. -/
theorem C6_counterexample_small_sigma :
    (0 < amountVariance ((tsWithAmounts amountWindowTight).average_amounts.map
        (fun p => p.value))) ∧
    (9 * amountVariance ((tsWithAmounts amountWindowTight).average_amounts.map
        (fun p => p.value)) <
      ((101 : ℚ) - amountMean ((tsWithAmounts amountWindowTight).average_amounts.map
        (fun p => p.value))) ^ 2) ∧
    detectAmountAnomaly (tsWithAmounts amountWindowTight)
      (sampleEvent "pay_1" "succeeded" (some 101) none) 0 0 = none := by
  refine ⟨by rw [tight_variance]; norm_num,
          by rw [tight_variance, tight_mean]; norm_num, ?_⟩
  have hlen : ¬ (tsWithAmounts amountWindowTight).average_amounts.length < 20 := by
    decide
  have hσle : Real.sqrt (((19/400 : ℚ) : ℝ)) ≤ 1 := by
    rw [show (1:ℝ) = Real.sqrt 1 from Real.sqrt_one.symm]
    exact Real.sqrt_le_sqrt (by norm_num)
  unfold detectAmountAnomaly
  rw [show (sampleEvent "pay_1" "succeeded" (some 101) none).amount = some 101
    from rfl]
  dsimp only
  rw [if_neg hlen, tight_mean, tight_variance, max_eq_right hσle]
  rw [if_neg ?hz]
  case hz =>
    push_cast
    rw [div_one, abs_of_nonneg (by norm_num : (0:ℝ) ≤ 101 - 2001/20)]
    norm_num

/-! ## C7 -/

/-- **C7** (counterexample): with `enable_predictions = false` a full
100-point buffer does *not* produce a `PredictionResult`: `predict` fails
with a `Computation` ("Predictions are disabled") error — and with few
points it fails with the same `Computation` error rather than the claimed
insufficient-data error.  The claim as stated (quantifying over all engine
states) therefore fails; it needs predictions to be enabled. -/
theorem C7_counterexample_disabled_predictions :
    (100 ≤ analyticsStateFull.time_series_data.length) ∧
    (predict analyticsCfgNoPredictions analyticsStateFull "success_rate" 0 0
        (fun _ => 1/2) = .error (.Computation "Predictions are disabled")) ∧
    (predict analyticsCfgNoPredictions AnalyticsState.init "success_rate" 0 0
        (fun _ => 1/2) = .error (.Computation "Predictions are disabled")) :=
  ⟨by decide, rfl, rfl⟩

/-- **C7** (amended): with predictions enabled, `predict` on fewer than 100
buffered points always fails with the insufficient-data error, and on 100
or more points always returns a `PredictionResult` whose confidence
interval is exactly `(mean − stddev, mean + stddev)` of the most recent 20
points — in particular symmetric around that mean. -/
theorem C7_predict_confidence_interval (cfg : AnalyticsConfig)
    (s : AnalyticsState) (metric : String) (freshId : Nat) (now : Int)
    (jitter : Nat → ℚ) (hen : cfg.enable_predictions = true) :
    (s.time_series_data.length < 100 →
      predict cfg s metric freshId now jitter =
        .error (.InsufficientData
          ("Need at least 100 data points, have " ++
            toString s.time_series_data.length))) ∧
    (100 ≤ s.time_series_data.length →
      ∃ r, predict cfg s metric freshId now jitter = .ok r ∧
        r.confidence_interval =
          (((forecastMean s : ℚ) : ℝ) - Real.sqrt ((forecastVariance s : ℚ) : ℝ),
           ((forecastMean s : ℚ) : ℝ) + Real.sqrt ((forecastVariance s : ℚ) : ℝ)) ∧
        r.confidence_interval.1 + r.confidence_interval.2 =
          2 * ((forecastMean s : ℚ) : ℝ)) := by
  constructor
  · intro hlt
    unfold predict
    rw [hen]
    simp [hlt]
  · intro hge
    have hnlt : ¬ s.time_series_data.length < 100 := Nat.not_lt.mpr hge
    unfold predict
    rw [hen]
    simp only [Bool.true_eq_false, if_false, if_neg hnlt]
    exact ⟨_, rfl, rfl, by ring⟩

theorem C7_witness :
    (predict analyticsCfgDefault AnalyticsState.init "payment_volume" 0 0
        (fun _ => 1/2) =
      .error (.InsufficientData
        ("Need at least 100 data points, have " ++
          toString AnalyticsState.init.time_series_data.length))) ∧
    (∃ r, predict analyticsCfgDefault analyticsStateFull "payment_volume" 0 0
          (fun _ => 1/2) = .ok r ∧
      r.confidence_interval =
        (((forecastMean analyticsStateFull : ℚ) : ℝ) -
            Real.sqrt ((forecastVariance analyticsStateFull : ℚ) : ℝ),
         ((forecastMean analyticsStateFull : ℚ) : ℝ) +
            Real.sqrt ((forecastVariance analyticsStateFull : ℚ) : ℝ)) ∧
      r.confidence_interval.1 + r.confidence_interval.2 =
        2 * ((forecastMean analyticsStateFull : ℚ) : ℝ)) :=
  ⟨(C7_predict_confidence_interval analyticsCfgDefault AnalyticsState.init
      "payment_volume" 0 0 (fun _ => 1/2) rfl).1 (by decide),
   (C7_predict_confidence_interval analyticsCfgDefault analyticsStateFull
      "payment_volume" 0 0 (fun _ => 1/2) rfl).2 (by decide)⟩

/-! ## C1 -/

theorem find?_key_append (pre : List (String × RoutingDecision)) (k : String)
    (hk : k ∉ pre.map Prod.fst) (rest : List (String × RoutingDecision)) :
    (pre ++ rest).find? (fun e => e.1 == k) = rest.find? (fun e => e.1 == k) := by
  induction pre with
  | nil => rfl
  | cons e es ih =>
      simp only [List.map_cons, List.mem_cons, not_or] at hk
      have hbeq : (e.1 == k) = false :=
        beq_eq_false_iff_ne.mpr (fun h => hk.1 h.symm)
      rw [List.cons_append, List.find?_cons_of_neg _ (by simp [hbeq])]
      exact ih hk.2

theorem lruGet_fst_none (c : List (String × RoutingDecision)) (k : String)
    (h : (lruGet c k).1 = none) :
    c.find? (fun e => e.1 == k) = none := by
  unfold lruGet at h
  cases hf : c.find? (fun e => e.1 == k) with
  | none => rfl
  | some e => rw [hf] at h; simp at h

theorem lruGet_inv (A : Finset String) (p : String) (d : RoutingDecision)
    (c : List (String × RoutingDecision)) (q : String) (hq : q ≠ p)
    (hqA : q ∈ A) (hinv : CacheInv A p d c) :
    CacheInv A p d (lruGet c q).2 := by
  obtain ⟨pre, post, rfl, hnd, hsub, hp⟩ := hinv
  unfold lruGet
  cases hf : (pre ++ (p, d) :: post).find? (fun e => e.1 == q) with
  | none => exact ⟨pre, post, rfl, hnd, hsub, hp⟩
  | some e =>
      have he : e.1 = q := by
        have := List.find?_some hf
        simpa [beq_iff_eq] using this
      have hpq : ((p, d).1 != q) = true := by
        simp only [bne_iff_ne, ne_eq]
        exact fun hh => hq hh.symm
      refine ⟨e :: pre.filter (fun x => x.1 != q),
              post.filter (fun x => x.1 != q), ?_, ?_, ?_, ?_⟩
      · simp [List.filter_append, List.filter_cons, hpq]
      · simp only [List.map_cons]
        refine List.nodup_cons.mpr ⟨?_, hnd.sublist
          ((List.filter_sublist _).map Prod.fst)⟩
        rw [he]
        intro hmem
        obtain ⟨x, hx, hxk⟩ := List.mem_map.mp hmem
        have hxq := (List.mem_filter.mp hx).2
        rw [hxk] at hxq
        simp at hxq
      · intro k hk
        simp only [List.map_cons, List.mem_cons] at hk
        rcases hk with hk | hk
        · rw [hk, he]; exact hqA
        · obtain ⟨x, hx, hxk⟩ := List.mem_map.mp hk
          exact hsub k (List.mem_map.mpr ⟨x, (List.mem_filter.mp hx).1, hxk⟩)
      · simp only [List.map_cons, List.mem_cons, not_or]
        refine ⟨?_, ?_⟩
        · rw [he]; exact fun hh => hq hh.symm
        · intro hmem
          obtain ⟨x, hx, hxk⟩ := List.mem_map.mp hmem
          exact hp (List.mem_map.mpr ⟨x, (List.mem_filter.mp hx).1, hxk⟩)

theorem lruPut_inv (A : Finset String) (p : String) (d : RoutingDecision)
    (c : List (String × RoutingDecision)) (q : String) (v : RoutingDecision)
    (hq : q ≠ p) (hqA : q ∈ A) (hcard : A.card + 1 ≤ decisionCacheCapacity)
    (hmiss : c.find? (fun e => e.1 == q) = none)
    (hinv : CacheInv A p d c) :
    CacheInv A p d (lruPut c q v) := by
  obtain ⟨pre, post, rfl, hnd, hsub, hp⟩ := hinv
  have hnotin : ∀ x ∈ pre ++ (p, d) :: post, (x.1 != q) = true := by
    intro x hx
    have hne := List.find?_eq_none.mp hmiss x hx
    simpa [bne_iff_ne] using hne
  have hfilter : (pre ++ (p, d) :: post).filter (fun x => x.1 != q) =
      pre ++ (p, d) :: post := List.filter_eq_self.mpr hnotin
  have hqpre : q ∉ pre.map Prod.fst := by
    intro hmem
    obtain ⟨x, hx, hxk⟩ := List.mem_map.mp hmem
    have := hnotin x (List.mem_append_left _ hx)
    rw [hxk] at this
    simp at this
  unfold lruPut
  dsimp only
  rw [hfilter]
  by_cases hlen : decisionCacheCapacity ≤ (pre ++ (p, d) :: post).length
  · rw [if_pos hlen]
    have hfin : (pre.map Prod.fst).toFinset ⊆ A.erase q := by
      intro k hk
      have hk' := List.mem_toFinset.mp hk
      refine Finset.mem_erase.mpr ⟨?_, hsub k hk'⟩
      intro hkq; rw [hkq] at hk'; exact hqpre hk'
    have hprelen : pre.length ≤ A.card - 1 := by
      have h1 : (pre.map Prod.fst).toFinset.card = pre.length := by
        rw [List.toFinset_card_of_nodup hnd, List.length_map]
      have h2 := Finset.card_le_card hfin
      rw [Finset.card_erase_of_mem hqA] at h2
      omega
    have hA1 : 1 ≤ A.card := Finset.card_pos.mpr ⟨q, hqA⟩
    have hpost : post ≠ [] := by
      intro hnil
      subst hnil
      simp only [List.length_append, List.length_cons, List.length_nil] at hlen
      omega
    rw [List.dropLast_append_cons]
    have hdrop : ((p, d) :: post).dropLast = (p, d) :: post.dropLast := by
      cases post with
      | nil => exact absurd rfl hpost
      | cons b bs => rfl
    rw [hdrop]
    refine ⟨(q, v) :: pre, post.dropLast, by simp, ?_, ?_, ?_⟩
    · simp only [List.map_cons]
      exact List.nodup_cons.mpr ⟨hqpre, hnd⟩
    · intro k hk
      simp only [List.map_cons, List.mem_cons] at hk
      rcases hk with hk | hk
      · rw [hk]; exact hqA
      · exact hsub k hk
    · simp only [List.map_cons, List.mem_cons, not_or]
      exact ⟨fun h => hq h.symm, hp⟩
  · rw [if_neg hlen]
    refine ⟨(q, v) :: pre, post, by simp, ?_, ?_, ?_⟩
    · simp only [List.map_cons]
      exact List.nodup_cons.mpr ⟨hqpre, hnd⟩
    · intro k hk
      simp only [List.map_cons, List.mem_cons] at hk
      rcases hk with hk | hk
      · rw [hk]; exact hqA
      · exact hsub k hk
    · simp only [List.map_cons, List.mem_cons, not_or]
      exact ⟨fun h => hq h.symm, hp⟩

theorem makeRoutingDecision_inv (A : Finset String) (p : String)
    (d : RoutingDecision) (s : DecisionState) (e : PaymentEvent)
    (f : Nat) (n : Int) (hq : e.payment_id ≠ p) (hqA : e.payment_id ∈ A)
    (hcard : A.card + 1 ≤ decisionCacheCapacity)
    (hinv : CacheInv A p d s.decision_cache) :
    CacheInv A p d (makeRoutingDecision s e f n).2.decision_cache := by
  unfold makeRoutingDecision
  cases hget : lruGet s.decision_cache e.payment_id with
  | mk fst cache' =>
    cases fst with
    | some cached =>
        have h2 := lruGet_inv A p d s.decision_cache e.payment_id hq hqA hinv
        rw [hget] at h2
        exact h2
    | none =>
        dsimp only
        cases hs : sortDescBy (fun cs => cs.score) (availableConnectors.map
            (fun connector => scoreConnector s.performance_cache connector e n)) with
        | nil => exact hinv
        | cons best rest =>
            refine lruPut_inv A p d s.decision_cache e.payment_id _ hq hqA hcard
              ?_ hinv
            have h1 : (lruGet s.decision_cache e.payment_id).1 = none := by
              rw [hget]
            exact lruGet_fst_none _ _ h1

theorem routeAll_inv (A : Finset String) (p : String) (d : RoutingDecision)
    (hcard : A.card + 1 ≤ decisionCacheCapacity) :
    ∀ (evs : List (PaymentEvent × Nat × Int)) (s : DecisionState),
      (∀ x ∈ evs, x.1.payment_id ≠ p ∧ x.1.payment_id ∈ A) →
      CacheInv A p d s.decision_cache →
      CacheInv A p d (routeAll s evs).decision_cache := by
  intro evs
  induction evs with
  | nil => intro s _ h; exact h
  | cons x xs ih =>
      intro s hevs h
      have hstep : routeAll s (x :: xs) =
          routeAll (makeRoutingDecision s x.1 x.2.1 x.2.2).2 xs := rfl
      rw [hstep]
      exact ih _ (fun y hy => hevs y (List.mem_cons_of_mem _ hy))
        (makeRoutingDecision_inv A p d s x.1 x.2.1 x.2.2
          (hevs x (List.mem_cons_self _ _)).1 (hevs x (List.mem_cons_self _ _)).2
          hcard h)

theorem lruPut_head_inv (A : Finset String) (p : String) (d : RoutingDecision)
    (c : List (String × RoutingDecision)) (v : RoutingDecision) (hv : v = d) :
    CacheInv A p d (lruPut c p v) := by
  subst hv
  unfold lruPut
  dsimp only
  exact ⟨[], _, rfl, by simp, by simp, by simp⟩

theorem first_route_inv (A : Finset String) (p : String) (d : RoutingDecision)
    (s : DecisionState) (e : PaymentEvent) (f : Nat) (n : Int)
    (hpid : e.payment_id = p)
    (hok : (makeRoutingDecision s e f n).1 = .ok d) :
    CacheInv A p d (makeRoutingDecision s e f n).2.decision_cache := by
  unfold makeRoutingDecision at hok ⊢
  cases hget : lruGet s.decision_cache e.payment_id with
  | mk fst cache' =>
    rw [hget] at hok
    cases fst with
    | some cached =>
        have hok' : Except.ok (ε := DecisionEngineError) cached = .ok d := hok
        have hcd : cached = d := by injection hok'
        unfold lruGet at hget
        cases hfind : s.decision_cache.find? (fun x => x.1 == e.payment_id) with
        | none => rw [hfind] at hget; simp at hget
        | some en =>
            rw [hfind] at hget
            injection hget with h1 h2
            injection h1 with h3
            have hkey : en.1 = e.payment_id := by
              have := List.find?_some hfind
              simpa [beq_iff_eq] using this
            have hen : en = (p, d) := by
              obtain ⟨k, vv⟩ := en
              simp only at h3 hkey
              rw [Prod.mk.injEq]
              exact ⟨by rw [hkey, hpid], by rw [h3, hcd]⟩
            refine ⟨[], s.decision_cache.filter (fun x => x.1 != e.payment_id),
              ?_, by simp, by simp, by simp⟩
            rw [← h2, hen]
            rfl
    | none =>
        dsimp only at hok ⊢
        cases hs : sortDescBy (fun cs => cs.score) (availableConnectors.map
            (fun connector => scoreConnector s.performance_cache connector e n)) with
        | nil =>
            rw [hs] at hok
            simp at hok
        | cons best rest =>
            rw [hs] at hok
            injection hok with hd
            rw [hpid] at hd ⊢
            exact lruPut_head_inv A p d s.decision_cache _ hd

theorem lruGet_hit (A : Finset String) (p : String) (d : RoutingDecision)
    (c : List (String × RoutingDecision)) (hinv : CacheInv A p d c) :
    (lruGet c p).1 = some d := by
  obtain ⟨pre, post, rfl, hnd, hsub, hp⟩ := hinv
  unfold lruGet
  rw [find?_key_append pre p hp, List.find?_cons_of_pos _ (by simp)]

theorem route_hit_of_inv (A : Finset String) (p : String) (d : RoutingDecision)
    (S : DecisionState) (e : PaymentEvent) (f : Nat) (n : Int)
    (hpid : e.payment_id = p) (hinv : CacheInv A p d S.decision_cache) :
    (makeRoutingDecision S e f n).1 = .ok d := by
  have hhit := lruGet_hit A p d _ hinv
  unfold makeRoutingDecision
  rw [hpid]
  cases hget : lruGet S.decision_cache p with
  | mk fst cache' =>
      rw [hget] at hhit
      cases fst with
      | some cached =>
          have hcd : cached = d := by simpa using hhit
          rw [hcd]
      | none => simp at hhit

/-- **C1**: routing is idempotent per payment id: if the first call for
payment `p` returns decision `d`, then after any interleaved routing of
other payments touching fewer than the cache capacity (1000) of distinct
payment ids, a second call for `p` returns the identical decision `d`
from the cache, with no re-scoring. -/
theorem C1_routing_idempotent_per_payment (s : DecisionState)
    (e₁ e₂ : PaymentEvent) (p : String) (f₁ f₂ : Nat) (n₁ n₂ : Int)
    (evs : List (PaymentEvent × Nat × Int)) (d : RoutingDecision)
    (hp₁ : e₁.payment_id = p) (hp₂ : e₂.payment_id = p)
    (hne : ∀ x ∈ evs, x.1.payment_id ≠ p)
    (hdistinct : (evs.map (fun x => x.1.payment_id)).toFinset.card <
      decisionCacheCapacity)
    (hfirst : (makeRoutingDecision s e₁ f₁ n₁).1 = .ok d) :
    (makeRoutingDecision (routeAll (makeRoutingDecision s e₁ f₁ n₁).2 evs)
        e₂ f₂ n₂).1 = .ok d := by
  set A := (evs.map (fun x => x.1.payment_id)).toFinset with hA
  have hcard : A.card + 1 ≤ decisionCacheCapacity := hdistinct
  have hinv1 : CacheInv A p d (makeRoutingDecision s e₁ f₁ n₁).2.decision_cache :=
    first_route_inv A p d s e₁ f₁ n₁ hp₁ hfirst
  have hinv2 : CacheInv A p d
      (routeAll (makeRoutingDecision s e₁ f₁ n₁).2 evs).decision_cache :=
    routeAll_inv A p d hcard evs _
      (fun x hx => ⟨hne x hx, by
        rw [hA]
        exact List.mem_toFinset.mpr (List.mem_map.mpr ⟨x, hx, rfl⟩)⟩)
      hinv1
  exact route_hit_of_inv A p d _ e₂ f₂ n₂ hp₂ hinv2

theorem C1_witness :
    (makeRoutingDecision
        (routeAll (makeRoutingDecision
            ⟨[], [("pay_1", dummyDecision)]⟩
            (sampleEvent "pay_1" "succeeded" (some 10000) none) 0 0).2
          [(sampleEvent "pay_2" "succeeded" (some 10000) none, 1, 1)])
        (sampleEvent "pay_1" "succeeded" (some 10000) none) 2 2).1 =
      .ok dummyDecision :=
  C1_routing_idempotent_per_payment ⟨[], [("pay_1", dummyDecision)]⟩
    (sampleEvent "pay_1" "succeeded" (some 10000) none)
    (sampleEvent "pay_1" "succeeded" (some 10000) none) "pay_1" 0 2 0 2
    [(sampleEvent "pay_2" "succeeded" (some 10000) none, 1, 1)] dummyDecision
    rfl rfl (by decide) (by decide) rfl

end AutonomousOrchestrator
